import Mathlib

/-!
# Console stenographer of `reporters/stenographer/stenographer.go`

A shallow embedding of the stateful console renderer.  The receiver
`consoleStenographer` is passed explicitly; every call of one of the print
primitives is recorded as a `PrintEvent`, so that a method is a function from
the receiver to the events it emitted, the receiver afterwards and either its
return value or the Go run-time panic that stopped it.
-/

namespace stenographer

/-! ## Constants -/

def defaultStyle : String := "\x1b[0m"
def boldStyle : String := "\x1b[1m"
def redColor : String := "\x1b[91m"
def greenColor : String := "\x1b[32m"
def yellowColor : String := "\x1b[33m"
def cyanColor : String := "\x1b[36m"
def grayColor : String := "\x1b[90m"
def lightGrayColor : String := "\x1b[37m"

/-- The type `cursorStateType` with its four constants. -/
inductive cursorStateType
  | cursorStateTop
  | cursorStateStreaming
  | cursorStateMidBlock
  | cursorStateEndBlock
deriving DecidableEq, Repr

open cursorStateType

/-- The receiver `consoleStenographer`. -/
structure consoleStenographer where
  color : Bool
  cursorState : cursorStateType
deriving DecidableEq, Repr

/-- The constructor `New`. -/
def New (color : Bool) : consoleStenographer :=
  { color := color, cursorState := cursorStateTop }

def alternatingColors : List String := [defaultStyle, grayColor]

/-! ## Data of package `types`

The declarations of `types.SpecSummary` and `types.SuiteSummary` are not in
this source file; the records below have the fields the stenographer reads.
-/

/-- Modelled from the spec: `time.Duration` of a run duration, in nanoseconds. -/
abbrev Duration := Int

/-- Modelled from the spec: a `float64` sample statistic.  The stenographer only
formats such a value, so it is carried by its bit pattern. -/
structure float64 where
  bits : Nat
deriving DecidableEq, Repr

/-- Modelled from the spec: a non-nil `interface{}` value (freeform info, forwarded
panic value), carried by the text that the verb `%v` renders it to. -/
structure GoValue where
  render : String
deriving DecidableEq, Repr

/-- Modelled from the spec: a code location (file and line) with the stack trace
recorded for it. -/
structure CodeLocation where
  FileName : String
  LineNumber : Int
  FullStackTrace : String
deriving DecidableEq, Repr

/-- Modelled from the spec: the state of a spec, one of passed, failed, panicked,
timed-out, skipped, pending. -/
inductive SpecState
  | SpecStatePassed
  | SpecStateFailed
  | SpecStatePanicked
  | SpecStateTimedOut
  | SpecStateSkipped
  | SpecStatePending
deriving DecidableEq, Repr

/-- Modelled from the spec: the component type of a failure.  The five constants
are the ones the stenographer tests for; `SpecComponentTypeOther` stands for any
further value of the underlying integer type. -/
inductive SpecComponentType
  | SpecComponentTypeBeforeEach
  | SpecComponentTypeJustBeforeEach
  | SpecComponentTypeAfterEach
  | SpecComponentTypeIt
  | SpecComponentTypeMeasure
  | SpecComponentTypeOther
deriving DecidableEq, Repr

/-- Modelled from the spec: the Failure record
`{message, forwardedPanicValue, componentIndex, componentType, location+fullStackTrace}`.
The stenographer reads it as `spec.Failure.X` without a nil test; it is a record
value of the summary.  `ForwardedPanic = none` is the nil interface. -/
structure SpecFailure where
  Message : String
  Location : CodeLocation
  ForwardedPanic : Option GoValue
  ComponentIndex : Int
  ComponentType : SpecComponentType
deriving DecidableEq, Repr

/-- Modelled from the spec: a Measurement
`{name, freeformInfo, smallestLabel, smallest, largestLabel, largest, averageLabel,
average, stdDeviation, units}`.  `Info = none` is the nil interface. -/
structure SpecMeasurement where
  Name : String
  Info : Option GoValue
  SmallestLabel : String
  LargestLabel : String
  AverageLabel : String
  Units : String
  Smallest : float64
  Largest : float64
  Average : float64
  StdDeviation : float64
deriving DecidableEq, Repr

/-- Modelled from the spec: the SpecSummary.  `Measurements` is the Go map from
measurement name to measurement, listed as its entries in the order in which a
`range` over the map visits them (every entry exactly once). -/
structure SpecSummary where
  ComponentTexts : List String
  ComponentCodeLocations : List CodeLocation
  State : SpecState
  RunTime : Duration
  Failure : SpecFailure
  NumberOfSamples : Int
  Measurements : List (String × SpecMeasurement)
  CapturedOutput : String
deriving DecidableEq, Repr

/-- Modelled from the spec: the SuiteSummary (aggregate counts, overall success
flag and total run duration). -/
structure SuiteSummary where
  NumberOfSpecsThatWillBeRun : Int
  NumberOfTotalSpecs : Int
  NumberOfPassedSpecs : Int
  NumberOfFailedSpecs : Int
  NumberOfPendingSpecs : Int
  NumberOfSkippedSpecs : Int
  SuiteSucceeded : Bool
  RunTime : Duration
deriving DecidableEq, Repr

/-- Modelled from the spec: the renderings that package `fmt` and the methods of
package `types` and `time` produce and that this file does not define:
`seconds3 d` is `Sprintf("%.3f", d.Seconds())`, `duration d` is `d.String()`,
`float3 x` is `Sprintf("%.3f", x)` and `location l` is `l.String()`. -/
structure Formatter where
  seconds3 : Duration → String
  duration : Duration → String
  float3 : float64 → String
  location : CodeLocation → String

/-- The verb `%v` applied to an `interface{}` value; the nil interface is rendered
as `<nil>`. -/
def sprintfV : Option GoValue → String
  | none => "<nil>"
  | some v => v.render

/-! ## Output events, panics and the method monad -/

/-- One call of a print primitive of the stenographer.  `text` is the format
with its arguments substituted. -/
inductive PrintEvent
  | print (indentation : Int) (text : String)
  | println (indentation : Int) (text : String)
  | printNewLine
  | printDelimiter
  | printBanner (text : String) (bannerCharacter : String)
deriving DecidableEq, Repr

/-- A Go run-time panic. -/
inductive GoPanic
  | sliceBoundsOutOfRange (low high : Int)
  | indexOutOfRange (index : Int) (length : Nat)
deriving DecidableEq, Repr

/-- How a call ended: with a return value or with a panic. -/
inductive Exit (α : Type)
  | returned (value : α)
  | panicked (p : GoPanic)
deriving DecidableEq, Repr

/-- What a method call did: the events it emitted (oldest first), the receiver
afterwards, and how it ended. -/
structure Step (α : Type) where
  out : List PrintEvent
  s : consoleStenographer
  exit : Exit α
deriving DecidableEq, Repr

/-- A method of `*consoleStenographer`. -/
def Method (α : Type) : Type := consoleStenographer → Step α

def Method.pure {α : Type} (a : α) : Method α :=
  fun s => { out := [], s := s, exit := .returned a }

/-- Sequencing: the second statement runs on the receiver left by the first and
only if the first returned; events accumulate. -/
def Method.bind {α β : Type} (m : Method α) (f : α → Method β) : Method β :=
  fun s =>
    match (m s).exit with
    | .returned a =>
        { out := (m s).out ++ (f a (m s).s).out, s := (f a (m s).s).s, exit := (f a (m s).s).exit }
    | .panicked p => { out := (m s).out, s := (m s).s, exit := .panicked p }

instance : Monad Method where
  pure := Method.pure
  bind := Method.bind

/-- The receiver `s` inside a method body. -/
def self : Method consoleStenographer :=
  fun s => { out := [], s := s, exit := .returned s }

/-- The assignment `s.cursorState = c`. -/
def setCursorState (c : cursorStateType) : Method Unit :=
  fun s => { out := [], s := { s with cursorState := c }, exit := .returned () }

/-- The slice expression `xs[low:high]` with its bounds check `0 ≤ low ≤ high ≤ len`.  (Go
checks `high` against the capacity; the one slice expression of this file has
`high = len - 1`, for which both checks agree.) -/
def slice {α : Type} (xs : List α) (low high : Int) : Method (List α) :=
  fun s =>
    if 0 ≤ low ∧ low ≤ high ∧ high ≤ (xs.length : Int) then
      { out := [], s := s, exit := .returned ((xs.drop low.toNat).take (high.toNat - low.toNat)) }
    else
      { out := [], s := s, exit := .panicked (.sliceBoundsOutOfRange low high) }

/-- The index expression `xs[i]` with its bounds check. -/
def index {α : Type} (xs : List α) (i : Int) : Method α :=
  fun s =>
    if 0 ≤ i then
      match xs.get? i.toNat with
      | some x => { out := [], s := s, exit := .returned x }
      | none => { out := [], s := s, exit := .panicked (.indexOutOfRange i xs.length) }
    else
      { out := [], s := s, exit := .panicked (.indexOutOfRange i xs.length) }

/-! ## Print primitives

The bodies of `colorize`, `print`, `println`, `printNewLine`, `printDelimiter`
and `printBanner` are defined in another file of the package.
-/

/-- Modelled from the spec: the Colorizer wraps text in style markers conditioned
on the construction-time flag; with color disabled the text is returned
byte-for-byte. -/
def colorize (s : consoleStenographer) (colorCode : String) (text : String) : String :=
  if s.color then colorCode ++ text ++ defaultStyle else text

/-- Modelled from the spec: `s.print(indentation, format, args...)`, recorded as an event. -/
def print (indentation : Int) (text : String) : Method Unit :=
  fun s => { out := [.print indentation text], s := s, exit := .returned () }

/-- Modelled from the spec: `s.println(indentation, format, args...)`, recorded as an event. -/
def println (indentation : Int) (text : String) : Method Unit :=
  fun s => { out := [.println indentation text], s := s, exit := .returned () }

/-- Modelled from the spec: `s.printNewLine()`, emits a newline; recorded as an event. -/
def printNewLine : Method Unit :=
  fun s => { out := [.printNewLine], s := s, exit := .returned () }

/-- Modelled from the spec: `s.printDelimiter()`, emits a full-width delimiter line;
recorded as an event. -/
def printDelimiter : Method Unit :=
  fun s => { out := [.printDelimiter], s := s, exit := .returned () }

/-- Modelled from the spec: `s.printBanner(text, bannerCharacter)`, recorded as an event. -/
def printBanner (text : String) (bannerCharacter : String) : Method Unit :=
  fun s => { out := [.printBanner text bannerCharacter], s := s, exit := .returned () }

/-! ## Header and footer announcements -/

def AnnounceSuite (description : String) (randomSeed : Int) (randomizingAll : Bool)
    (succinct : Bool) : Method Unit := do
  if succinct then
    print 0 ("[" ++ toString randomSeed ++ "] " ++ colorize (← self) boldStyle description ++ " ")
    return
  printBanner ("Running Suite: " ++ description) "="
  print 0 ("Random Seed: " ++ colorize (← self) boldStyle (toString randomSeed))
  if randomizingAll then
    print 0 " - Will randomize all specs"
  printNewLine

def AnnounceParallelRun (node : Int) (nodes : Int) (specsToRun : Int) (totalSpecs : Int)
    (succinct : Bool) : Method Unit := do
  if succinct then
    print 0 ("- node #" ++ toString node ++ " ")
    return
  println 0
    ("Parallel test node " ++ colorize (← self) boldStyle (toString node)
      ++ "/" ++ colorize (← self) boldStyle (toString nodes)
      ++ ". Assigned " ++ colorize (← self) boldStyle (toString specsToRun)
      ++ " of " ++ colorize (← self) boldStyle (toString totalSpecs) ++ " specs.")
  printNewLine

def AnnounceAggregatedParallelRun (nodes : Int) (succinct : Bool) : Method Unit := do
  if succinct then
    print 0 ("- " ++ toString nodes ++ " nodes ")
    return
  println 0
    ("Running in parallel across " ++ colorize (← self) boldStyle (toString nodes) ++ " nodes")
  printNewLine

def AnnounceNumberOfSpecs (specsToRun : Int) (total : Int) (succinct : Bool) : Method Unit := do
  if succinct then
    print 0 ("- " ++ toString specsToRun ++ "/" ++ toString total ++ " specs ")
    setCursorState cursorStateStreaming
    return
  println 0
    ("Will run " ++ colorize (← self) boldStyle (toString specsToRun)
      ++ " of " ++ colorize (← self) boldStyle (toString total) ++ " specs")
  printNewLine

def AnnounceSpecRunCompletion (F : Formatter) (summary : SuiteSummary) (succinct : Bool) :
    Method Unit := do
  if succinct && summary.SuiteSucceeded then
    print 0 (" " ++ colorize (← self) greenColor "SUCCESS!" ++ " " ++ F.duration summary.RunTime ++ " ")
    return
  printNewLine
  let mut color := greenColor
  if !summary.SuiteSucceeded then
    color := redColor
  println 0
    (colorize (← self) (boldStyle ++ color)
      ("Ran " ++ toString summary.NumberOfSpecsThatWillBeRun ++ " of "
        ++ toString summary.NumberOfTotalSpecs ++ " Specs in "
        ++ F.seconds3 summary.RunTime ++ " seconds"))
  let mut status := ""
  if summary.SuiteSucceeded then
    status := colorize (← self) (boldStyle ++ greenColor) "SUCCESS!"
  else
    status := colorize (← self) (boldStyle ++ redColor) "FAIL!"
  print 0
    (status ++ " -- "
      ++ colorize (← self) (greenColor ++ boldStyle) (toString summary.NumberOfPassedSpecs ++ " Passed")
      ++ " | "
      ++ colorize (← self) (redColor ++ boldStyle) (toString summary.NumberOfFailedSpecs ++ " Failed")
      ++ " | "
      ++ colorize (← self) (yellowColor ++ boldStyle) (toString summary.NumberOfPendingSpecs ++ " Pending")
      ++ " | "
      ++ colorize (← self) (cyanColor ++ boldStyle) (toString summary.NumberOfSkippedSpecs ++ " Skipped")
      ++ " ")

/-! ## Spec announcements -/

/-- The `for i, text := range ...` loop of `AnnounceSpecWillRun`; `i` is the
index of the head of the remaining texts. -/
def AnnounceSpecWillRun.loop : Nat → List String → Method Unit
  | _, [] => pure ()
  | i, text :: rest => do
      print 0
        (colorize (← self) (alternatingColors.get ⟨i % 2, Nat.mod_lt i (by decide)⟩) text ++ " ")
      AnnounceSpecWillRun.loop (i + 1) rest

def AnnounceSpecWillRun (F : Formatter) (spec : SpecSummary) : Method Unit := do
  if (← self).cursorState = cursorStateStreaming then
    printNewLine
    printDelimiter
  AnnounceSpecWillRun.loop 0
    (← slice spec.ComponentTexts 1 ((spec.ComponentTexts.length : Int) - 1))
  let mut indentation : Int := 0
  if spec.ComponentTexts.length > 2 then
    indentation := 1
    printNewLine
  let index_ : Int := (spec.ComponentTexts.length : Int) - 1
  print indentation (colorize (← self) boldStyle (← index spec.ComponentTexts index_))
  printNewLine
  print indentation
    (colorize (← self) lightGrayColor (F.location (← index spec.ComponentCodeLocations index_)))
  printNewLine
  setCursorState cursorStateMidBlock

def AnnounceCapturedOutput (spec : SpecSummary) : Method Unit := do
  if spec.CapturedOutput = "" then
    return
  if (← self).cursorState = cursorStateStreaming then
    printNewLine
    printDelimiter
  else if (← self).cursorState = cursorStateMidBlock then
    printNewLine
  println 0 spec.CapturedOutput
  setCursorState cursorStateMidBlock

def AnnounceSuccesfulSpec (_spec : SpecSummary) : Method Unit := do
  print 0 (colorize (← self) greenColor "•")
  setCursorState cursorStateStreaming

/-! ## Nested block rendering -/

/-- The `switch spec.Failure.ComponentType` of `printCodeLocationBlock`. -/
def blockType : SpecComponentType → String
  | .SpecComponentTypeBeforeEach => "BeforeEach"
  | .SpecComponentTypeJustBeforeEach => "JustBeforeEach"
  | .SpecComponentTypeAfterEach => "AfterEach"
  | .SpecComponentTypeIt => "It"
  | .SpecComponentTypeMeasure => "Measurement"
  | .SpecComponentTypeOther => ""

/-- The `for i := startIndex; i < len(spec.ComponentTexts); i++` loop of
`printCodeLocationBlock`, over the values that `i` still has to take; returns the
local variable `indentation` at loop exit. -/
def printCodeLocationBlock.loop (F : Formatter) (spec : SpecSummary) (failure : Bool)
    (succinct : Bool) : List Nat → Int → Method Int
  | [], indentation => pure indentation
  | i :: rest, indentation => do
      if failure && ((i : Int) == spec.Failure.ComponentIndex) then
        if succinct then
          print 0
            (colorize (← self) (redColor ++ boldStyle)
              ("[" ++ blockType spec.Failure.ComponentType ++ "] "
                ++ (← index spec.ComponentTexts i) ++ " "))
        else
          println indentation
            (colorize (← self) (redColor ++ boldStyle)
              ((← index spec.ComponentTexts i) ++ " ["
                ++ blockType spec.Failure.ComponentType ++ "]"))
          println indentation
            (colorize (← self) grayColor
              ("(" ++ F.location (← index spec.ComponentCodeLocations i) ++ ")"))
      else
        if succinct then
          print 0
            (colorize (← self) (alternatingColors.get ⟨i % 2, Nat.mod_lt i (by decide)⟩)
              ((← index spec.ComponentTexts i) ++ " "))
        else
          println indentation (← index spec.ComponentTexts i)
          println indentation
            (colorize (← self) grayColor
              ("(" ++ F.location (← index spec.ComponentCodeLocations i) ++ ")"))
      printCodeLocationBlock.loop F spec failure succinct rest (indentation + 1)

def printCodeLocationBlock (F : Formatter) (spec : SpecSummary) (failure : Bool)
    (succinct : Bool) : Method Int := do
  let mut indentation : Int := 0
  let mut startIndex : Nat := 1
  if spec.ComponentTexts.length = 1 then
    startIndex := 0
  indentation ← printCodeLocationBlock.loop F spec failure succinct
    (List.range' startIndex (spec.ComponentTexts.length - startIndex)) indentation
  if succinct then
    if spec.ComponentTexts.length > 0 then
      printNewLine
      print 0
        (colorize (← self) lightGrayColor
          ("(" ++ F.location
            (← index spec.ComponentCodeLocations ((spec.ComponentCodeLocations.length : Int) - 1))
            ++ ")"))
    printNewLine
    indentation := 1
  else
    indentation := indentation - 1
  return indentation

def printBlockWithMessage (F : Formatter) (header : String) (message : String)
    (spec : SpecSummary) (succinct : Bool) : Method Unit := do
  if (← self).cursorState = cursorStateStreaming then
    printNewLine
    printDelimiter
  else if (← self).cursorState = cursorStateMidBlock then
    printNewLine
  println 0 header
  let indentation ← printCodeLocationBlock F spec false succinct
  if message ≠ "" then
    printNewLine
    println indentation message
  printDelimiter
  setCursorState cursorStateEndBlock

def printFailure (F : Formatter) (message : String) (spec : SpecSummary) (succinct : Bool) :
    Method Unit := do
  if (← self).cursorState = cursorStateStreaming then
    printNewLine
    printDelimiter
  else if (← self).cursorState = cursorStateMidBlock then
    printNewLine
  println 0
    (colorize (← self) (redColor ++ boldStyle)
      (message ++ " [" ++ F.seconds3 spec.RunTime ++ " seconds]"))
  let indentation ← printCodeLocationBlock F spec true succinct
  printNewLine
  if spec.State = .SpecStatePanicked then
    println indentation (colorize (← self) (redColor ++ boldStyle) spec.Failure.Message)
    println indentation (colorize (← self) redColor (sprintfV spec.Failure.ForwardedPanic))
    println indentation (F.location spec.Failure.Location)
    printNewLine
    println indentation (colorize (← self) redColor "Full Stack Trace")
    println indentation spec.Failure.Location.FullStackTrace
  else
    println indentation (colorize (← self) redColor spec.Failure.Message)
    printNewLine
    println indentation (F.location spec.Failure.Location)
  printDelimiter
  setCursorState cursorStateEndBlock

/-! ## Measurement report -/

/-- The `for _, measurement := range spec.Measurements` loop of `measurementReport`:
`i` and `message` are the local variables on entry, the list holds the entries
still to be visited; returns `message` at loop exit. -/
def measurementReport.loop (F : Formatter) (s : consoleStenographer) :
    Nat → List String → List (String × SpecMeasurement) → List String
  | _, message, [] => message
  | i, message, (_, measurement) :: rest =>
      let message := if i > 0 then message ++ ["\n"] else message
      let info := ""
      let message :=
        match measurement.Info with
        | some v => message ++ [sprintfV (some v)]
        | none => message
      let message := message ++
        [colorize s boldStyle measurement.Name ++ ":\n" ++ info ++ "  "
          ++ measurement.SmallestLabel ++ ": "
          ++ colorize s greenColor (F.float3 measurement.Smallest) ++ measurement.Units
          ++ "\n  " ++ measurement.LargestLabel ++ ": "
          ++ colorize s redColor (F.float3 measurement.Largest) ++ measurement.Units
          ++ "\n  " ++ measurement.AverageLabel ++ ": "
          ++ colorize s cyanColor (F.float3 measurement.Average) ++ measurement.Units
          ++ " ± "
          ++ colorize s cyanColor (F.float3 measurement.StdDeviation) ++ measurement.Units]
      measurementReport.loop F s (i + 1) message rest

/-- The slice `message` of `measurementReport` just before `strings.Join`. -/
def measurementReport.message (F : Formatter) (s : consoleStenographer) (spec : SpecSummary) :
    List String :=
  let message : List String := []
  let message := message ++
    ["Ran " ++ colorize s boldStyle (toString spec.NumberOfSamples) ++ " samples:"]
  measurementReport.loop F s 0 message spec.Measurements

def measurementReport (F : Formatter) (s : consoleStenographer) (spec : SpecSummary) : String :=
  if spec.Measurements.length = 0 then
    "Found no measurements"
  else
    String.intercalate "\n" (measurementReport.message F s spec)

/-- The text that the last `append` of the loop body of `measurementReport` adds for one
measurement: the `fmt.Sprintf("%s:\n%s  %s: %s%s\n  %s: %s%s\n  %s: %s%s ± %s%s", ...)` with
`info` the empty string. -/
def measurementReport.block (F : Formatter) (s : consoleStenographer)
    (measurement : SpecMeasurement) : String :=
  colorize s boldStyle measurement.Name ++ ":\n" ++ "" ++ "  "
    ++ measurement.SmallestLabel ++ ": "
    ++ colorize s greenColor (F.float3 measurement.Smallest) ++ measurement.Units
    ++ "\n  " ++ measurement.LargestLabel ++ ": "
    ++ colorize s redColor (F.float3 measurement.Largest) ++ measurement.Units
    ++ "\n  " ++ measurement.AverageLabel ++ ": "
    ++ colorize s cyanColor (F.float3 measurement.Average) ++ measurement.Units
    ++ " ± "
    ++ colorize s cyanColor (F.float3 measurement.StdDeviation) ++ measurement.Units

/-- The text that the loop body of `measurementReport` puts before the block of a measurement:
the `%v` rendering of its freeform info as a line of its own, when the info is not nil. -/
def measurementReport.infoLine (measurement : SpecMeasurement) : String :=
  match measurement.Info with
  | some v => sprintfV (some v) ++ "\n"
  | none => ""

/-! ## Spec outcome announcements -/

def AnnounceSuccesfulSlowSpec (F : Formatter) (spec : SpecSummary) (succinct : Bool) :
    Method Unit := do
  printBlockWithMessage F
    (colorize (← self) greenColor ("• [SLOW TEST:" ++ F.seconds3 spec.RunTime ++ " seconds]"))
    ""
    spec
    succinct

def AnnounceSuccesfulMeasurement (F : Formatter) (spec : SpecSummary) (succinct : Bool) :
    Method Unit := do
  printBlockWithMessage F
    (colorize (← self) greenColor "• [MEASUREMENT]")
    (measurementReport F (← self) spec)
    spec
    succinct

def AnnouncePendingSpec (F : Formatter) (spec : SpecSummary) (noisy : Bool) : Method Unit := do
  if noisy then
    printBlockWithMessage F
      (colorize (← self) yellowColor "P [PENDING]")
      ""
      spec
      false
  else
    print 0 (colorize (← self) greenColor "P")
    setCursorState cursorStateStreaming

def AnnounceSkippedSpec (_spec : SpecSummary) : Method Unit := do
  print 0 (colorize (← self) cyanColor "S")
  setCursorState cursorStateStreaming

def AnnounceSpecTimedOut (F : Formatter) (spec : SpecSummary) (succinct : Bool) : Method Unit :=
  printFailure F "•... Timeout" spec succinct

def AnnounceSpecPanicked (F : Formatter) (spec : SpecSummary) (succinct : Bool) : Method Unit :=
  printFailure F "•! Panic" spec succinct

def AnnounceSpecFailed (F : Formatter) (spec : SpecSummary) (succinct : Bool) : Method Unit :=
  printFailure F "• Failure" spec succinct

/-! ## Sample inputs

Concrete inputs on which the definitions above are evaluated.
-/

/-- A formatter for concrete inputs: durations are whole seconds, a sample statistic is its
carrier number taken as a whole number, a code location is rendered as `file:line`. -/
def sampleFormatter : Formatter :=
  { seconds3 := fun d => toString (d / 1000000000) ++ ".000"
    duration := fun d => toString (d / 1000000000) ++ "s"
    float3 := fun x => toString x.bits ++ ".000"
    location := fun l => l.FileName ++ ":" ++ toString l.LineNumber }

def sampleFailure : SpecFailure :=
  { Message := "expected true"
    Location := { FileName := "suite_test.go", LineNumber := 9, FullStackTrace := "goroutine 1" }
    ForwardedPanic := none
    ComponentIndex := 1
    ComponentType := .SpecComponentTypeIt }

/-- A failed spec with the component texts `["Suite", "runs fast"]`. -/
def sampleSpec : SpecSummary :=
  { ComponentTexts := ["Suite", "runs fast"]
    ComponentCodeLocations :=
      [{ FileName := "suite_test.go", LineNumber := 3, FullStackTrace := "" },
       { FileName := "suite_test.go", LineNumber := 7, FullStackTrace := "" }]
    State := .SpecStateFailed
    RunTime := 2000000000
    Failure := sampleFailure
    NumberOfSamples := 1
    Measurements := []
    CapturedOutput := "" }

/-- A spec with the single component text `["runs fast"]`. -/
def sampleSingleSpec : SpecSummary :=
  { sampleSpec with
    ComponentTexts := ["runs fast"]
    ComponentCodeLocations :=
      [{ FileName := "suite_test.go", LineNumber := 7, FullStackTrace := "" }]
    Failure := { sampleFailure with ComponentIndex := 0 } }

/-- A spec with no component text. -/
def sampleEmptySpec : SpecSummary :=
  { sampleSpec with ComponentTexts := [], ComponentCodeLocations := [] }

def sampleMeasurement : SpecMeasurement :=
  { Name := "runtime"
    Info := none
    SmallestLabel := "Fastest Time"
    LargestLabel := "Slowest Time"
    AverageLabel := "Average Time"
    Units := "s"
    Smallest := { bits := 1 }
    Largest := { bits := 3 }
    Average := { bits := 2 }
    StdDeviation := { bits := 1 } }

/-- A passed measurement spec with one measurement. -/
def sampleMeasurementSpec : SpecSummary :=
  { sampleSpec with
    State := .SpecStatePassed
    Measurements := [("runtime", sampleMeasurement)] }

/-- A second measurement, with freeform info. -/
def sampleMemoryMeasurement : SpecMeasurement :=
  { Name := "memory"
    Info := some { render := "heap only" }
    SmallestLabel := "Smallest"
    LargestLabel := "Largest"
    AverageLabel := "Average"
    Units := "MB"
    Smallest := { bits := 4 }
    Largest := { bits := 6 }
    Average := { bits := 5 }
    StdDeviation := { bits := 1 } }

/-- A passed measurement spec with two measurements, visited in the order listed. -/
def sampleTwoMeasurementSpec : SpecSummary :=
  { sampleSpec with
    State := .SpecStatePassed
    NumberOfSamples := 2
    Measurements :=
      [("runtime", sampleMeasurement),
       ("runtime2", { sampleMeasurement with Name := "runtime2" })] }

/-- A passed measurement spec whose second measurement carries freeform info. -/
def sampleInfoMeasurementSpec : SpecSummary :=
  { sampleSpec with
    State := .SpecStatePassed
    NumberOfSamples := 2
    Measurements := [("runtime", sampleMeasurement), ("memory", sampleMemoryMeasurement)] }

/-- A panicked spec with the component texts `["Suite", "runs fast"]`, componentIndex 1 and
componentType It. -/
def samplePanickedSpec : SpecSummary :=
  { sampleSpec with
    State := .SpecStatePanicked
    Failure := { sampleFailure with
      Message := "Test Panicked"
      ForwardedPanic := some { render := "index out of range" } } }

/-- The suite summary total=10, run=10, passed=8, failed=2, pending=0, skipped=0 of a suite
that did not succeed and ran for three seconds. -/
def sampleSuiteSummary : SuiteSummary :=
  { NumberOfSpecsThatWillBeRun := 10
    NumberOfTotalSpecs := 10
    NumberOfPassedSpecs := 8
    NumberOfFailedSpecs := 2
    NumberOfPendingSpecs := 0
    NumberOfSkippedSpecs := 0
    SuiteSucceeded := false
    RunTime := 3000000000 }

/-! ## The measurement block in the words of the specification -/

/-- The measurement block as the specification words it (color disabled): the line `name:`
followed by three two-space-indented lines in which a single space separates every rendered
number from the units text. -/
def specMeasurementBlock (F : Formatter) (m : SpecMeasurement) : String :=
  m.Name ++ ":\n"
    ++ "  " ++ m.SmallestLabel ++ ": " ++ F.float3 m.Smallest ++ " " ++ m.Units ++ "\n"
    ++ "  " ++ m.LargestLabel ++ ": " ++ F.float3 m.Largest ++ " " ++ m.Units ++ "\n"
    ++ "  " ++ m.AverageLabel ++ ": " ++ F.float3 m.Average ++ " " ++ m.Units
    ++ " ± " ++ F.float3 m.StdDeviation ++ " " ++ m.Units

/-! # Theorems -/

/-! ## Evaluation lemmas for the method monad -/

@[simp] theorem Method_bind_apply {α β : Type} (m : Method α) (f : α → Method β)
    (s : consoleStenographer) : (m >>= f) s = Method.bind m f s := rfl

@[simp] theorem Method_pure_apply {α : Type} (a : α) (s : consoleStenographer) :
    (Pure.pure a : Method α) s = { out := [], s := s, exit := .returned a } := rfl

theorem index_natCast {α : Type} (xs : List α) (i : Nat) (h : i < xs.length)
    (s : consoleStenographer) :
    index xs (i : Int) s = { out := [], s := s, exit := .returned xs[i] } := by
  simp [index, List.getElem?_eq_getElem h]

/-- A call that returned: its three components. -/
theorem Step_eq_of {α : Type} (r : Step α) (s : consoleStenographer) (a : α)
    (hs : r.s = s) (he : r.exit = .returned a) :
    r = { out := r.out, s := s, exit := .returned a } := by
  cases r; simp_all

/-! ## The rendering loop -/

theorem printCodeLocationBlock_loop_returns (F : Formatter) (spec : SpecSummary)
    (failure succinct : Bool) :
    ∀ (idxs : List Nat) (indentation : Int) (s : consoleStenographer),
      (∀ i ∈ idxs, i < spec.ComponentTexts.length ∧ i < spec.ComponentCodeLocations.length) →
      (printCodeLocationBlock.loop F spec failure succinct idxs indentation s).s = s ∧
      (printCodeLocationBlock.loop F spec failure succinct idxs indentation s).exit
        = .returned (indentation + idxs.length) := by
  intro idxs
  induction idxs with
  | nil => intro indentation s _; simp [printCodeLocationBlock.loop]
  | cons i rest ih =>
      intro indentation s h
      obtain ⟨ht, hl⟩ := h i (List.mem_cons_self _ _)
      obtain ⟨h1, h2⟩ := ih (indentation + 1) s (fun j hj => h j (List.mem_cons_of_mem _ hj))
      have hcast : indentation + 1 + (rest.length : Int) = indentation + ((rest.length : Int) + 1) := by
        ring
      unfold printCodeLocationBlock.loop
      by_cases hf : (failure && ((i : Int) == spec.Failure.ComponentIndex)) = true <;>
        cases succinct <;>
        simp [hf, Method.bind, self, print, println, index_natCast _ i ht, index_natCast _ i hl,
          h1, h2, hcast]

/-- The events of the rendering loop over all component levels from `start`. -/
theorem printCodeLocationBlock_loop_range (F : Formatter) (spec : SpecSummary)
    (failure succinct : Bool) (start : Nat) (indentation : Int) (s : consoleStenographer)
    (hloc : spec.ComponentCodeLocations.length = spec.ComponentTexts.length) :
    printCodeLocationBlock.loop F spec failure succinct
        (List.range' start (spec.ComponentTexts.length - start)) indentation s
      = { out := (printCodeLocationBlock.loop F spec failure succinct
            (List.range' start (spec.ComponentTexts.length - start)) indentation s).out,
          s := s,
          exit := .returned (indentation + ((spec.ComponentTexts.length - start : Nat) : Int)) } := by
  obtain ⟨h1, h2⟩ := printCodeLocationBlock_loop_returns F spec failure succinct
    (List.range' start (spec.ComponentTexts.length - start)) indentation s (by
      intro i hi
      rw [List.mem_range'_1] at hi
      omega)
  exact Step_eq_of _ _ _ h1 (by simpa using h2)

/-- The first index that `printCodeLocationBlock` renders. -/
theorem printCodeLocationBlock_eq (F : Formatter) (spec : SpecSummary)
    (failure succinct : Bool) (s : consoleStenographer)
    (htexts : 1 ≤ spec.ComponentTexts.length)
    (hloc : spec.ComponentCodeLocations.length = spec.ComponentTexts.length) :
    printCodeLocationBlock F spec failure succinct s
      = { out := (printCodeLocationBlock.loop F spec failure succinct
              (List.range' (if spec.ComponentTexts.length = 1 then 0 else 1)
                (spec.ComponentTexts.length - (if spec.ComponentTexts.length = 1 then 0 else 1)))
              0 s).out
            ++ (if succinct then
                  [.printNewLine,
                   .print 0 (colorize s lightGrayColor
                      ("(" ++ F.location
                        (spec.ComponentCodeLocations.getLast (by
                          intro h; rw [h] at hloc; simp at hloc; omega)) ++ ")")),
                   .printNewLine]
                else []),
          s := s,
          exit := .returned
            (if succinct then 1
             else if spec.ComponentTexts.length = 1 then 0
             else (spec.ComponentTexts.length : Int) - 2) } := by
  have hlast : spec.ComponentCodeLocations.length - 1 < spec.ComponentCodeLocations.length := by
    omega
  have hidx := index_natCast spec.ComponentCodeLocations
    (spec.ComponentCodeLocations.length - 1) hlast s
  have hcast : ((spec.ComponentCodeLocations.length - 1 : Nat) : Int)
      = (spec.ComponentCodeLocations.length : Int) - 1 := by omega
  rw [hcast] at hidx
  have hget : spec.ComponentCodeLocations[spec.ComponentCodeLocations.length - 1]
      = spec.ComponentCodeLocations.getLast (by
          intro h; rw [h] at hloc; simp at hloc; omega) := by
    rw [List.getLast_eq_getElem]
  rw [hget] at hidx
  by_cases h1 : spec.ComponentTexts.length = 1
  · have h := printCodeLocationBlock_loop_range F spec failure succinct 0 0 s hloc
    cases succinct
    · simp [printCodeLocationBlock, h1, Method.bind] at h ⊢
      rw [h]; simp
    · simp [printCodeLocationBlock, h1, Method.bind] at h ⊢
      rw [h]; simp [hidx, self, print, printNewLine, Method.bind]
  · have h := printCodeLocationBlock_loop_range F spec failure succinct 1 0 s hloc
    have hpos : 0 < spec.ComponentTexts.length := by omega
    cases succinct
    · simp [printCodeLocationBlock, h1, Method.bind] at h ⊢
      rw [h]; simp; omega
    · simp [printCodeLocationBlock, h1, Method.bind] at h ⊢
      rw [h]; simp [hidx, self, print, printNewLine, hpos, Method.bind]

/-! ## The two block printers -/

theorem printBlockWithMessage_of (F : Formatter) (header message : String) (spec : SpecSummary)
    (succinct : Bool) (s : consoleStenographer) (evs : List PrintEvent) (indentation : Int)
    (h : printCodeLocationBlock F spec false succinct s
      = { out := evs, s := s, exit := .returned indentation }) :
    printBlockWithMessage F header message spec succinct s
      = { out :=
            (if s.cursorState = cursorStateStreaming then [.printNewLine, .printDelimiter]
             else if s.cursorState = cursorStateMidBlock then [.printNewLine] else [])
            ++ .println 0 header :: evs
            ++ (if message = "" then [] else [.printNewLine, .println indentation message])
            ++ [.printDelimiter],
          s := { s with cursorState := cursorStateEndBlock },
          exit := .returned () } := by
  by_cases hm : message = "" <;>
    by_cases hs : s.cursorState = cursorStateStreaming <;>
    by_cases hb : s.cursorState = cursorStateMidBlock <;>
    simp [printBlockWithMessage, Method.bind, self, hs, hb, hm, h, printNewLine, printDelimiter,
      println, setCursorState]

theorem printFailure_of (F : Formatter) (message : String) (spec : SpecSummary)
    (succinct : Bool) (s : consoleStenographer) (evs : List PrintEvent) (indentation : Int)
    (h : printCodeLocationBlock F spec true succinct s
      = { out := evs, s := s, exit := .returned indentation }) :
    printFailure F message spec succinct s
      = { out :=
            (if s.cursorState = cursorStateStreaming then [.printNewLine, .printDelimiter]
             else if s.cursorState = cursorStateMidBlock then [.printNewLine] else [])
            ++ .println 0 (colorize s (redColor ++ boldStyle)
                  (message ++ " [" ++ F.seconds3 spec.RunTime ++ " seconds]")) :: evs
            ++ .printNewLine ::
               (if spec.State = .SpecStatePanicked then
                  [.println indentation (colorize s (redColor ++ boldStyle) spec.Failure.Message),
                   .println indentation (colorize s redColor (sprintfV spec.Failure.ForwardedPanic)),
                   .println indentation (F.location spec.Failure.Location),
                   .printNewLine,
                   .println indentation (colorize s redColor "Full Stack Trace"),
                   .println indentation spec.Failure.Location.FullStackTrace]
                else
                  [.println indentation (colorize s redColor spec.Failure.Message),
                   .printNewLine,
                   .println indentation (F.location spec.Failure.Location)])
            ++ [.printDelimiter],
          s := { s with cursorState := cursorStateEndBlock },
          exit := .returned () } := by
  by_cases hp : spec.State = .SpecStatePanicked <;>
    by_cases hs : s.cursorState = cursorStateStreaming <;>
    by_cases hb : s.cursorState = cursorStateMidBlock <;>
    simp [printFailure, Method.bind, self, hs, hb, hp, h, printNewLine, printDelimiter,
      println, setCursorState]

theorem printBlockWithMessage_ends (F : Formatter) (header message : String)
    (spec : SpecSummary) (succinct : Bool) (s : consoleStenographer)
    (htexts : 1 ≤ spec.ComponentTexts.length)
    (hloc : spec.ComponentCodeLocations.length = spec.ComponentTexts.length) :
    ∃ evs, printBlockWithMessage F header message spec succinct s
      = { out := evs ++ [.printDelimiter], s := { s with cursorState := cursorStateEndBlock },
          exit := .returned () } :=
  ⟨_, printBlockWithMessage_of F header message spec succinct s _ _
      (printCodeLocationBlock_eq F spec false succinct s htexts hloc)⟩

theorem printFailure_ends (F : Formatter) (message : String)
    (spec : SpecSummary) (succinct : Bool) (s : consoleStenographer)
    (htexts : 1 ≤ spec.ComponentTexts.length)
    (hloc : spec.ComponentCodeLocations.length = spec.ComponentTexts.length) :
    ∃ evs, printFailure F message spec succinct s
      = { out := evs ++ [.printDelimiter], s := { s with cursorState := cursorStateEndBlock },
          exit := .returned () } :=
  ⟨_, printFailure_of F message spec succinct s _ _
      (printCodeLocationBlock_eq F spec true succinct s htexts hloc)⟩

/-- C1: for every starting cursor state and every spec with at least one component text and
one code location per component text, each of AnnounceSpecFailed, AnnounceSpecTimedOut,
AnnounceSpecPanicked, AnnounceSuccesfulSlowSpec, AnnounceSuccesfulMeasurement and
AnnouncePendingSpec with noisy=true returns, leaves the cursor state EndBlock, and the last
event it emitted is printDelimiter. -/
theorem C1_block_announcements_end_with_delimiter (F : Formatter) (s : consoleStenographer)
    (spec : SpecSummary) (succinct : Bool)
    (htexts : 1 ≤ spec.ComponentTexts.length)
    (hloc : spec.ComponentCodeLocations.length = spec.ComponentTexts.length) :
    ∀ m ∈ [AnnounceSpecFailed F spec succinct, AnnounceSpecTimedOut F spec succinct,
        AnnounceSpecPanicked F spec succinct, AnnounceSuccesfulSlowSpec F spec succinct,
        AnnounceSuccesfulMeasurement F spec succinct, AnnouncePendingSpec F spec true],
      (m s).exit = .returned () ∧ (m s).s.cursorState = cursorStateEndBlock ∧
        (m s).out.getLast? = some .printDelimiter := by
  have hF := fun message => printFailure_ends F message spec succinct s htexts hloc
  have hB := fun header message (succinct : Bool) =>
    printBlockWithMessage_ends F header message spec succinct s htexts hloc
  intro m hm
  simp only [List.mem_cons, List.mem_singleton, List.not_mem_nil, or_false] at hm
  rcases hm with rfl | rfl | rfl | rfl | rfl | rfl
  · obtain ⟨evs, h⟩ := hF "• Failure"
    rw [AnnounceSpecFailed, h]; simp
  · obtain ⟨evs, h⟩ := hF "•... Timeout"
    rw [AnnounceSpecTimedOut, h]; simp
  · obtain ⟨evs, h⟩ := hF "•! Panic"
    rw [AnnounceSpecPanicked, h]; simp
  · obtain ⟨evs, h⟩ := hB (colorize s greenColor
      ("• [SLOW TEST:" ++ F.seconds3 spec.RunTime ++ " seconds]")) "" succinct
    simp [AnnounceSuccesfulSlowSpec, Method.bind, self, h]
  · obtain ⟨evs, h⟩ := hB (colorize s greenColor "• [MEASUREMENT]")
      (measurementReport F s spec) succinct
    simp [AnnounceSuccesfulMeasurement, Method.bind, self, h]
  · obtain ⟨evs, h⟩ := hB (colorize s yellowColor "P [PENDING]") "" false
    simp [AnnouncePendingSpec, Method.bind, self, h]

theorem C1_witness :
    1 ≤ sampleSpec.ComponentTexts.length ∧
    sampleSpec.ComponentCodeLocations.length = sampleSpec.ComponentTexts.length ∧
    (AnnounceSpecFailed sampleFormatter sampleSpec true (New false)).exit = .returned () ∧
    (AnnounceSpecFailed sampleFormatter sampleSpec true (New false)).s.cursorState
      = cursorStateEndBlock ∧
    (AnnounceSpecFailed sampleFormatter sampleSpec true (New false)).out.getLast?
      = some .printDelimiter :=
  ⟨by decide, by decide,
    C1_block_announcements_end_with_delimiter sampleFormatter (New false) sampleSpec true
      (by decide) (by decide) _ (List.mem_cons_self _ _)⟩

/-- C2: for every starting cursor state and every spec, AnnounceSuccesfulSpec,
AnnounceSkippedSpec and AnnouncePendingSpec with noisy=false return, emit exactly one event,
the print of their glyph at indentation 0 (no newline, no delimiter), and leave the cursor
state Streaming. -/
theorem C2_glyph_announcements_stream (F : Formatter) (s : consoleStenographer)
    (spec : SpecSummary) :
    AnnounceSuccesfulSpec spec s
        = { out := [.print 0 (colorize s greenColor "•")],
            s := { s with cursorState := cursorStateStreaming }, exit := .returned () } ∧
    AnnounceSkippedSpec spec s
        = { out := [.print 0 (colorize s cyanColor "S")],
            s := { s with cursorState := cursorStateStreaming }, exit := .returned () } ∧
    AnnouncePendingSpec F spec false s
        = { out := [.print 0 (colorize s greenColor "P")],
            s := { s with cursorState := cursorStateStreaming }, exit := .returned () } := by
  refine ⟨?_, ?_, ?_⟩
  · simp [AnnounceSuccesfulSpec, Method.bind, print, setCursorState, self]
  · simp [AnnounceSkippedSpec, Method.bind, print, setCursorState, self]
  · simp [AnnouncePendingSpec, Method.bind, print, setCursorState, self]

/-- C3: when the cursor state is Streaming, each of AnnounceSpecWillRun,
AnnounceSpecFailed/TimedOut/Panicked, AnnounceSuccesfulSlowSpec, AnnounceSuccesfulMeasurement,
noisy AnnouncePendingSpec, and AnnounceCapturedOutput with non-empty captured text, emits
printNewLine and then printDelimiter as its first two events, for every spec. -/
theorem C3_streaming_separator (F : Formatter) (s : consoleStenographer) (spec : SpecSummary)
    (succinct : Bool) (hs : s.cursorState = cursorStateStreaming) :
    (∀ m ∈ [AnnounceSpecWillRun F spec, AnnounceSpecFailed F spec succinct,
        AnnounceSpecTimedOut F spec succinct, AnnounceSpecPanicked F spec succinct,
        AnnounceSuccesfulSlowSpec F spec succinct, AnnounceSuccesfulMeasurement F spec succinct,
        AnnouncePendingSpec F spec true],
      (m s).out.take 2 = [.printNewLine, .printDelimiter]) ∧
    (spec.CapturedOutput ≠ "" →
      (AnnounceCapturedOutput spec s).out.take 2 = [.printNewLine, .printDelimiter]) := by
  refine ⟨?_, ?_⟩
  · intro m hm
    simp only [List.mem_cons, List.mem_singleton, List.not_mem_nil, or_false] at hm
    rcases hm with rfl | rfl | rfl | rfl | rfl | rfl | rfl
    · simp [AnnounceSpecWillRun, Method.bind, self, hs, printNewLine, printDelimiter]
    · simp [AnnounceSpecFailed, printFailure, Method.bind, self, hs, printNewLine, printDelimiter]
    · simp [AnnounceSpecTimedOut, printFailure, Method.bind, self, hs, printNewLine, printDelimiter]
    · simp [AnnounceSpecPanicked, printFailure, Method.bind, self, hs, printNewLine, printDelimiter]
    · simp [AnnounceSuccesfulSlowSpec, printBlockWithMessage, Method.bind, self, hs, printNewLine, printDelimiter]
    · simp [AnnounceSuccesfulMeasurement, printBlockWithMessage, Method.bind, self, hs, printNewLine, printDelimiter]
    · simp [AnnouncePendingSpec, printBlockWithMessage, Method.bind, self, hs, printNewLine, printDelimiter]
  · intro hc
    simp [AnnounceCapturedOutput, Method.bind, self, hs, hc, printNewLine, printDelimiter]

theorem C3_witness :
    ({ color := false, cursorState := cursorStateStreaming } : consoleStenographer).cursorState
      = cursorStateStreaming ∧
    (AnnounceSpecWillRun sampleFormatter sampleSpec
        { color := false, cursorState := cursorStateStreaming }).out.take 2
      = [.printNewLine, .printDelimiter] ∧
    (AnnounceCapturedOutput { sampleSpec with CapturedOutput := "log line" }
        { color := false, cursorState := cursorStateStreaming }).out.take 2
      = [.printNewLine, .printDelimiter] :=
  ⟨rfl,
    (C3_streaming_separator sampleFormatter { color := false, cursorState := cursorStateStreaming }
      sampleSpec true rfl).1 _ (List.mem_cons_self _ _),
    (C3_streaming_separator sampleFormatter { color := false, cursorState := cursorStateStreaming }
      { sampleSpec with CapturedOutput := "log line" } true rfl).2 (by decide)⟩

/-! ## The separator from MidBlock -/

theorem printBlockWithMessage_midBlock (F : Formatter) (header message : String)
    (spec : SpecSummary) (succinct : Bool) (s : consoleStenographer)
    (hs : s.cursorState = cursorStateMidBlock) :
    (printBlockWithMessage F header message spec succinct s).out.take 2
      = [.printNewLine, .println 0 header] := by
  simp [printBlockWithMessage, Method.bind, self, hs, printNewLine, println]

theorem printFailure_midBlock (F : Formatter) (message : String)
    (spec : SpecSummary) (succinct : Bool) (s : consoleStenographer)
    (hs : s.cursorState = cursorStateMidBlock) :
    (printFailure F message spec succinct s).out.take 2
      = [.printNewLine,
         .println 0 (colorize s (redColor ++ boldStyle)
            (message ++ " [" ++ F.seconds3 spec.RunTime ++ " seconds]"))] := by
  simp [printFailure, Method.bind, self, hs, printNewLine, println]

theorem AnnounceCapturedOutput_midBlock (spec : SpecSummary) (s : consoleStenographer)
    (hs : s.cursorState = cursorStateMidBlock) (hc : spec.CapturedOutput ≠ "") :
    AnnounceCapturedOutput spec s
      = { out := [.printNewLine, .println 0 spec.CapturedOutput], s := s,
          exit := .returned () } := by
  cases s
  simp_all [AnnounceCapturedOutput, Method.bind, self, printNewLine, println, setCursorState]

/-- C4: evaluated at cursor state MidBlock on the spec with component texts
"Suite", "runs fast": AnnounceSpecWillRun emits the innermost text as its first event, with no
newline before it, whereas AnnounceCapturedOutput and AnnounceSuccesfulSlowSpec from the same
cursor state start with printNewLine. -/
theorem C4_spec_will_run_from_midBlock :
    AnnounceSpecWillRun sampleFormatter sampleSpec
        { color := false, cursorState := cursorStateMidBlock }
      = { out := [.print 0 "runs fast", .printNewLine, .print 0 "suite_test.go:7",
                  .printNewLine],
          s := { color := false, cursorState := cursorStateMidBlock },
          exit := .returned () } ∧
    (AnnounceCapturedOutput { sampleSpec with CapturedOutput := "log line" }
        { color := false, cursorState := cursorStateMidBlock }).out
      = [.printNewLine, .println 0 "log line"] ∧
    (AnnounceSuccesfulSlowSpec sampleFormatter sampleSpec false
        { color := false, cursorState := cursorStateMidBlock }).out
      = [.printNewLine, .println 0 "• [SLOW TEST:2.000 seconds]", .println 0 "runs fast",
         .println 0 "(suite_test.go:7)", .printDelimiter] := by
  decide

/-! ## The spec-will-run header -/

theorem AnnounceSpecWillRun_loop_returns :
    ∀ (texts : List String) (i : Nat) (s : consoleStenographer),
      (AnnounceSpecWillRun.loop i texts s).s = s ∧
      (AnnounceSpecWillRun.loop i texts s).exit = .returned () := by
  intro texts
  induction texts with
  | nil => intro i s; simp [AnnounceSpecWillRun.loop]
  | cons text rest ih =>
      intro i s
      obtain ⟨h1, h2⟩ := ih (i + 1) s
      unfold AnnounceSpecWillRun.loop
      simp [Method.bind, self, print, h1, h2]

theorem AnnounceSpecWillRun_loop_s (texts : List String) (i : Nat) (s : consoleStenographer) :
    (AnnounceSpecWillRun.loop i texts s).s = s :=
  (AnnounceSpecWillRun_loop_returns texts i s).1

theorem AnnounceSpecWillRun_loop_exit (texts : List String) (i : Nat)
    (s : consoleStenographer) :
    (AnnounceSpecWillRun.loop i texts s).exit = .returned () :=
  (AnnounceSpecWillRun_loop_returns texts i s).2

/-- With two or more component texts and one code location per text, `AnnounceSpecWillRun`
returns, ends with the innermost text, a newline, its code location and a newline, and
leaves the cursor state MidBlock. -/
theorem AnnounceSpecWillRun_of_two_le (F : Formatter) (spec : SpecSummary)
    (s : consoleStenographer)
    (htexts : 2 ≤ spec.ComponentTexts.length)
    (hloc : spec.ComponentCodeLocations.length = spec.ComponentTexts.length) :
    (AnnounceSpecWillRun F spec s).exit = .returned () ∧
    (AnnounceSpecWillRun F spec s).s.cursorState = cursorStateMidBlock ∧
    ∃ pre, (AnnounceSpecWillRun F spec s).out = pre ++
      [.print (if spec.ComponentTexts.length > 2 then 1 else 0)
          (colorize s boldStyle (spec.ComponentTexts.getLast (by
            intro h; rw [h] at htexts; simp at htexts))),
       .printNewLine,
       .print (if spec.ComponentTexts.length > 2 then 1 else 0)
          (colorize s lightGrayColor (F.location (spec.ComponentCodeLocations.getLast (by
            intro h; rw [h] at hloc; simp at hloc; omega)))),
       .printNewLine] := by
  have hslice : slice spec.ComponentTexts 1 ((spec.ComponentTexts.length : Int) - 1) s
      = { out := [], s := s,
          exit := .returned ((spec.ComponentTexts.drop 1).take
            (spec.ComponentTexts.length - 1 - 1)) } := by
    have h1 : (1 : Int) ≤ (spec.ComponentTexts.length : Int) - 1 := by omega
    have h2 : ((spec.ComponentTexts.length : Int) - 1).toNat = spec.ComponentTexts.length - 1 := by
      omega
    simp [slice, h1, h2]
  have hcast : ((spec.ComponentTexts.length - 1 : Nat) : Int)
      = (spec.ComponentTexts.length : Int) - 1 := by omega
  have hit : index spec.ComponentTexts ((spec.ComponentTexts.length : Int) - 1) s
      = { out := [], s := s,
          exit := .returned (spec.ComponentTexts.getLast (by
            intro h; rw [h] at htexts; simp at htexts)) } := by
    rw [← hcast, index_natCast spec.ComponentTexts (spec.ComponentTexts.length - 1) (by omega) s,
      List.getLast_eq_getElem]
  have hil : index spec.ComponentCodeLocations ((spec.ComponentTexts.length : Int) - 1) s
      = { out := [], s := s,
          exit := .returned (spec.ComponentCodeLocations.getLast (by
            intro h; rw [h] at hloc; simp at hloc; omega)) } := by
    rw [← hcast, index_natCast spec.ComponentCodeLocations (spec.ComponentTexts.length - 1)
      (by omega) s, List.getLast_eq_getElem]
    simp [hloc]
  by_cases hs : s.cursorState = cursorStateStreaming <;>
    by_cases h2 : spec.ComponentTexts.length > 2
  all_goals
    simp [AnnounceSpecWillRun, Method.bind, self, hs, h2, hslice, AnnounceSpecWillRun_loop_s,
      AnnounceSpecWillRun_loop_exit, hit, hil, printNewLine, printDelimiter, print,
      setCursorState]
  · exact ⟨PrintEvent.printNewLine :: PrintEvent.printDelimiter ::
      ((AnnounceSpecWillRun.loop 0
        (List.take (spec.ComponentTexts.length - 1 - 1) spec.ComponentTexts.tail) s).out
        ++ [PrintEvent.printNewLine]), by simp⟩
  · exact ⟨PrintEvent.printNewLine :: PrintEvent.printDelimiter ::
      (AnnounceSpecWillRun.loop 0
        (List.take (spec.ComponentTexts.length - 1 - 1) spec.ComponentTexts.tail) s).out,
      by simp⟩
  · exact ⟨(AnnounceSpecWillRun.loop 0
        (List.take (spec.ComponentTexts.length - 1 - 1) spec.ComponentTexts.tail) s).out
        ++ [PrintEvent.printNewLine], by simp⟩

/-- C5: evaluated on the spec with the single component text "runs fast" and its one code
location: AnnounceSpecWillRun stops with the panic `slice bounds out of range [1:0]`, having
printed no component text (from Streaming only the separator) and with the cursor state
unchanged, whereas printCodeLocationBlock renders the same spec. -/
theorem C5_spec_will_run_single_component :
    AnnounceSpecWillRun sampleFormatter sampleSingleSpec (New false)
      = { out := [], s := New false, exit := .panicked (.sliceBoundsOutOfRange 1 0) } ∧
    AnnounceSpecWillRun sampleFormatter sampleSingleSpec
        { color := false, cursorState := cursorStateStreaming }
      = { out := [.printNewLine, .printDelimiter],
          s := { color := false, cursorState := cursorStateStreaming },
          exit := .panicked (.sliceBoundsOutOfRange 1 0) } ∧
    printCodeLocationBlock sampleFormatter sampleSingleSpec false false (New false)
      = { out := [.println 0 "runs fast", .println 0 "(suite_test.go:7)"], s := New false,
          exit := .returned 0 } := by
  decide

/-! ## Failure highlighting in the rendering loop -/

theorem printCodeLocationBlock_loop_failure_irrelevant (F : Formatter) (spec : SpecSummary)
    (succinct : Bool) :
    ∀ (idxs : List Nat) (indentation : Int) (s : consoleStenographer),
      (∀ i ∈ idxs, (i : Int) ≠ spec.Failure.ComponentIndex) →
      printCodeLocationBlock.loop F spec true succinct idxs indentation s
        = printCodeLocationBlock.loop F spec false succinct idxs indentation s := by
  intro idxs
  induction idxs with
  | nil => intro indentation s _; simp [printCodeLocationBlock.loop]
  | cons i rest ih =>
      intro indentation s h
      have hi : ((i : Int) == spec.Failure.ComponentIndex) = false := by
        simpa using h i (List.mem_cons_self _ _)
      have ih' : ∀ ind, printCodeLocationBlock.loop F spec true succinct rest ind
          = printCodeLocationBlock.loop F spec false succinct rest ind :=
        fun ind => funext fun s => ih ind s (fun j hj => h j (List.mem_cons_of_mem _ hj))
      unfold printCodeLocationBlock.loop
      simp [hi, ih']

theorem printCodeLocationBlock_loop_highlight_succinct (F : Formatter) (spec : SpecSummary)
    (k : Nat) (hk : spec.Failure.ComponentIndex = (k : Int))
    (hlt : k < spec.ComponentTexts.length) :
    ∀ (idxs : List Nat) (indentation : Int) (s : consoleStenographer),
      (∀ i ∈ idxs, i < spec.ComponentTexts.length) → k ∈ idxs →
      PrintEvent.print 0 (colorize s (redColor ++ boldStyle)
          ("[" ++ blockType spec.Failure.ComponentType ++ "] " ++ spec.ComponentTexts[k] ++ " "))
        ∈ (printCodeLocationBlock.loop F spec true true idxs indentation s).out := by
  intro idxs
  induction idxs with
  | nil => intro _ _ _ hmem; simp at hmem
  | cons i rest ih =>
      intro indentation s h hmem
      have ht := h i (List.mem_cons_self _ _)
      unfold printCodeLocationBlock.loop
      by_cases hik : i = k
      · subst hik
        simp [hk, Method.bind, self, print, index_natCast _ i ht]
      · have hi : ((i : Int) == spec.Failure.ComponentIndex) = false := by
          simp [hk]; omega
        have hmem' : k ∈ rest := by
          rcases List.mem_cons.mp hmem with h1 | h1
          · exact absurd h1.symm hik
          · exact h1
        have := ih (indentation + 1) s (fun j hj => h j (List.mem_cons_of_mem _ hj)) hmem'
        simp [hi, Method.bind, self, print, index_natCast _ i ht, this]

theorem printCodeLocationBlock_loop_highlight_verbose (F : Formatter) (spec : SpecSummary)
    (k : Nat) (hk : spec.Failure.ComponentIndex = (k : Int))
    (hlt : k < spec.ComponentTexts.length) (hll : k < spec.ComponentCodeLocations.length) :
    ∀ (idxs : List Nat) (indentation : Int) (s : consoleStenographer),
      (∀ i ∈ idxs, i < spec.ComponentTexts.length ∧ i < spec.ComponentCodeLocations.length) →
      ∀ (j : Nat) (hj : j < idxs.length), idxs[j] = k →
      [PrintEvent.println (indentation + j) (colorize s (redColor ++ boldStyle)
          (spec.ComponentTexts[k] ++ " [" ++ blockType spec.Failure.ComponentType ++ "]")),
       PrintEvent.println (indentation + j) (colorize s grayColor
          ("(" ++ F.location spec.ComponentCodeLocations[k] ++ ")"))]
        <:+: (printCodeLocationBlock.loop F spec true false idxs indentation s).out := by
  intro idxs
  induction idxs with
  | nil => intro _ _ _ j hj; simp at hj
  | cons i rest ih =>
      intro indentation s h j hj hjk
      obtain ⟨ht, hl⟩ := h i (List.mem_cons_self _ _)
      unfold printCodeLocationBlock.loop
      cases j with
      | zero =>
          simp at hjk
          subst hjk
          simp [hk, Method.bind, self, println, index_natCast _ i ht, index_natCast _ i hl]
          exact ⟨[], _, rfl⟩
      | succ j =>
          have hj' : j < rest.length := by simpa using hj
          have hjk' : rest[j] = k := by simpa using hjk
          have := ih (indentation + 1) s (fun j hj => h j (List.mem_cons_of_mem _ hj)) j hj' hjk'
          have hcast : indentation + ((j + 1 : Nat) : Int) = indentation + 1 + (j : Int) := by
            push_cast; ring
          rw [hcast]
          by_cases hi : ((i : Int) == spec.Failure.ComponentIndex) = true
          · simp [hi, Method.bind, self, println, index_natCast _ i ht, index_natCast _ i hl]
            exact List.infix_cons (List.infix_cons this)
          · simp [hi, Method.bind, self, println, index_natCast _ i ht, index_natCast _ i hl]
            exact List.infix_cons (List.infix_cons this)

/-- C6 (amended): printCodeLocationBlock signals no error on malformed input.  With an
empty component-text sequence it returns normally having rendered no component (succinct: a
single printNewLine, return value 1; verbose: no event, return value -1).  With at least one
component text, one code location per text and a Failure.ComponentIndex outside
0..len(ComponentTexts)-1, the failure rendering returns normally and is exactly the
un-highlighted rendering. -/
theorem C6_malformed_input_returns_normally (F : Formatter) (spec : SpecSummary)
    (failure succinct : Bool) (s : consoleStenographer) :
    (spec.ComponentTexts = [] →
      printCodeLocationBlock F spec failure succinct s
        = { out := if succinct then [.printNewLine] else [], s := s,
            exit := .returned (if succinct then 1 else -1) }) ∧
    (1 ≤ spec.ComponentTexts.length →
      spec.ComponentCodeLocations.length = spec.ComponentTexts.length →
      (spec.Failure.ComponentIndex < 0 ∨
        (spec.ComponentTexts.length : Int) ≤ spec.Failure.ComponentIndex) →
      printCodeLocationBlock F spec true succinct s
          = printCodeLocationBlock F spec false succinct s ∧
        (printCodeLocationBlock F spec true succinct s).exit
          = .returned (if succinct then 1
                       else if spec.ComponentTexts.length = 1 then 0
                       else (spec.ComponentTexts.length : Int) - 2)) := by
  constructor
  · intro h
    cases succinct <;>
      simp [printCodeLocationBlock, h, Method.bind, printCodeLocationBlock.loop, printNewLine]
  · intro htexts hloc hidx
    constructor
    · have hirr : ∀ start : Nat,
          printCodeLocationBlock.loop F spec true succinct
              (List.range' start (spec.ComponentTexts.length - start))
            = printCodeLocationBlock.loop F spec false succinct
              (List.range' start (spec.ComponentTexts.length - start)) := by
        intro start
        funext indentation s
        apply printCodeLocationBlock_loop_failure_irrelevant
        intro i hi
        rw [List.mem_range'_1] at hi
        omega
      have h0 := hirr 0
      have h1 := hirr 1
      simp only [Nat.sub_zero] at h0
      simp [printCodeLocationBlock, h0, h1]
    · rw [printCodeLocationBlock_eq F spec true succinct s htexts hloc]

/-- C6 (counterexample): on the spec without component texts printCodeLocationBlock returns 1
and AnnounceSpecFailed returns normally; on the spec "Suite", "runs fast" with
Failure.ComponentIndex = 5 AnnounceSpecFailed returns normally with un-highlighted output. -/
theorem C6_counterexample :
    printCodeLocationBlock sampleFormatter sampleEmptySpec true true (New false)
      = { out := [.printNewLine], s := New false, exit := .returned 1 } ∧
    AnnounceSpecFailed sampleFormatter sampleEmptySpec true (New false)
      = { out := [.println 0 "• Failure [2.000 seconds]", .printNewLine, .printNewLine,
                  .println 1 "expected true", .printNewLine, .println 1 "suite_test.go:9",
                  .printDelimiter],
          s := { color := false, cursorState := cursorStateEndBlock }, exit := .returned () } ∧
    AnnounceSpecFailed sampleFormatter
        { sampleSpec with Failure := { sampleFailure with ComponentIndex := 5 } } true (New false)
      = { out := [.println 0 "• Failure [2.000 seconds]", .print 0 "runs fast ", .printNewLine,
                  .print 0 "(suite_test.go:7)", .printNewLine, .printNewLine,
                  .println 1 "expected true", .printNewLine, .println 1 "suite_test.go:9",
                  .printDelimiter],
          s := { color := false, cursorState := cursorStateEndBlock }, exit := .returned () } := by
  decide

theorem C6_witness :
    sampleEmptySpec.ComponentTexts = [] ∧
    printCodeLocationBlock sampleFormatter sampleEmptySpec true false (New false)
      = { out := [], s := New false, exit := .returned (-1) } ∧
    printCodeLocationBlock sampleFormatter
        { sampleSpec with Failure := { sampleFailure with ComponentIndex := 2 } } true true
        (New false)
      = printCodeLocationBlock sampleFormatter
        { sampleSpec with Failure := { sampleFailure with ComponentIndex := 2 } } false true
        (New false) :=
  ⟨rfl,
    (C6_malformed_input_returns_normally sampleFormatter sampleEmptySpec true false
      (New false)).1 rfl,
    ((C6_malformed_input_returns_normally sampleFormatter
      { sampleSpec with Failure := { sampleFailure with ComponentIndex := 2 } } true true
      (New false)).2 (by decide) (by decide) (by decide)).1⟩

theorem printFailure_infix (F : Formatter) (message : String) (spec : SpecSummary)
    (succinct : Bool) (s : consoleStenographer) (l : List PrintEvent)
    (htexts : 1 ≤ spec.ComponentTexts.length)
    (hloc : spec.ComponentCodeLocations.length = spec.ComponentTexts.length)
    (h : l <:+: (printCodeLocationBlock.loop F spec true succinct
              (List.range' (if spec.ComponentTexts.length = 1 then 0 else 1)
                (spec.ComponentTexts.length - (if spec.ComponentTexts.length = 1 then 0 else 1)))
              0 s).out) :
    l <:+: (printFailure F message spec succinct s).out := by
  rw [printFailure_of F message spec succinct s _ _
    (printCodeLocationBlock_eq F spec true succinct s htexts hloc)]
  simp only
  refine List.IsInfix.trans h ?_
  refine List.IsInfix.trans ?_ (List.prefix_append _ _).isInfix
  refine List.IsInfix.trans ?_ (List.prefix_append _ _).isInfix
  refine List.IsInfix.trans ?_ (List.suffix_append _ _).isInfix
  refine List.IsInfix.trans ?_ (List.suffix_cons _ _).isInfix
  exact (List.prefix_append _ _).isInfix

/-- C7 (amended): for every spec with one code location per component text whose
Failure.ComponentIndex k is rendered by the loop (1 <= k < len(ComponentTexts), or k = 0 with
exactly one component text) and whose ComponentType is BeforeEach, JustBeforeEach, AfterEach,
It or Measure with tag "BeforeEach", "JustBeforeEach", "AfterEach", "It" or "Measurement",
each of AnnounceSpecFailed/TimedOut/Panicked emits in succinct mode the inline print
"[tag] text " of the component at index k, and in verbose mode the line "text [tag]" directly
followed by the line with its parenthesised code location, both at indentation k-1 (0 for a
single component text). -/
theorem C7_failing_component_is_highlighted (F : Formatter) (s : consoleStenographer)
    (spec : SpecSummary) (k : Nat) (tag : String)
    (hloc : spec.ComponentCodeLocations.length = spec.ComponentTexts.length)
    (hk : spec.Failure.ComponentIndex = (k : Int))
    (hlt : k < spec.ComponentTexts.length)
    (hstart : 1 ≤ k ∨ spec.ComponentTexts.length = 1)
    (htag : (spec.Failure.ComponentType, tag) ∈
      [(SpecComponentType.SpecComponentTypeBeforeEach, "BeforeEach"),
       (SpecComponentType.SpecComponentTypeJustBeforeEach, "JustBeforeEach"),
       (SpecComponentType.SpecComponentTypeAfterEach, "AfterEach"),
       (SpecComponentType.SpecComponentTypeIt, "It"),
       (SpecComponentType.SpecComponentTypeMeasure, "Measurement")]) :
    ∀ m ∈ [AnnounceSpecFailed F spec, AnnounceSpecTimedOut F spec, AnnounceSpecPanicked F spec],
      PrintEvent.print 0 (colorize s (redColor ++ boldStyle)
          ("[" ++ tag ++ "] " ++ spec.ComponentTexts[k] ++ " ")) ∈ (m true s).out ∧
      [PrintEvent.println (if spec.ComponentTexts.length = 1 then 0 else (k : Int) - 1)
          (colorize s (redColor ++ boldStyle) (spec.ComponentTexts[k] ++ " [" ++ tag ++ "]")),
       PrintEvent.println (if spec.ComponentTexts.length = 1 then 0 else (k : Int) - 1)
          (colorize s grayColor
            ("(" ++ F.location (spec.ComponentCodeLocations.get ⟨k, hloc ▸ hlt⟩) ++ ")"))]
        <:+: (m false s).out := by
  have htexts : 1 ≤ spec.ComponentTexts.length := by omega
  have hll : k < spec.ComponentCodeLocations.length := hloc ▸ hlt
  have htag' : blockType spec.Failure.ComponentType = tag := by
    simp only [List.mem_cons, List.mem_singleton, List.not_mem_nil, or_false, Prod.mk.injEq] at htag
    rcases htag with ⟨h1, h2⟩ | ⟨h1, h2⟩ | ⟨h1, h2⟩ | ⟨h1, h2⟩ | ⟨h1, h2⟩ <;>
      rw [h1, h2] <;> rfl
  -- position of `k` among the rendered indices
  have hrange : ∀ i ∈ List.range' (if spec.ComponentTexts.length = 1 then 0 else 1)
      (spec.ComponentTexts.length - (if spec.ComponentTexts.length = 1 then 0 else 1)),
      i < spec.ComponentTexts.length ∧ i < spec.ComponentCodeLocations.length := by
    intro i hi
    rw [List.mem_range'_1] at hi
    split at hi <;> omega
  have hsucc : ∀ message,
      PrintEvent.print 0 (colorize s (redColor ++ boldStyle)
          ("[" ++ tag ++ "] " ++ spec.ComponentTexts[k] ++ " "))
        ∈ (printFailure F message spec true s).out := by
    intro message
    have hmem := printCodeLocationBlock_loop_highlight_succinct F spec k hk hlt
      (List.range' (if spec.ComponentTexts.length = 1 then 0 else 1)
        (spec.ComponentTexts.length - (if spec.ComponentTexts.length = 1 then 0 else 1)))
      0 s (fun i hi => (hrange i hi).1) (by
        rw [List.mem_range'_1]
        split <;> omega)
    rw [htag'] at hmem
    rw [printFailure_of F message spec true s _ _
      (printCodeLocationBlock_eq F spec true true s htexts hloc)]
    simp [hmem]
  have hverb : ∀ message,
      [PrintEvent.println (if spec.ComponentTexts.length = 1 then 0 else (k : Int) - 1)
          (colorize s (redColor ++ boldStyle) (spec.ComponentTexts[k] ++ " [" ++ tag ++ "]")),
       PrintEvent.println (if spec.ComponentTexts.length = 1 then 0 else (k : Int) - 1)
          (colorize s grayColor
            ("(" ++ F.location (spec.ComponentCodeLocations.get ⟨k, hloc ▸ hlt⟩) ++ ")"))]
        <:+: (printFailure F message spec false s).out := by
    intro message
    have hlen : k - (if spec.ComponentTexts.length = 1 then 0 else 1)
        < (List.range' (if spec.ComponentTexts.length = 1 then 0 else 1)
            (spec.ComponentTexts.length
              - (if spec.ComponentTexts.length = 1 then 0 else 1))).length := by
      rw [List.length_range']
      split <;> omega
    have hinf := printCodeLocationBlock_loop_highlight_verbose F spec k hk hlt hll
      (List.range' (if spec.ComponentTexts.length = 1 then 0 else 1)
        (spec.ComponentTexts.length - (if spec.ComponentTexts.length = 1 then 0 else 1)))
      0 s hrange (k - (if spec.ComponentTexts.length = 1 then 0 else 1)) hlen (by
        rw [List.getElem_range']
        split <;> omega)
    rw [htag'] at hinf
    have hind : (0 : Int) + ((k - (if spec.ComponentTexts.length = 1 then 0 else 1) : Nat) : Int)
        = (if spec.ComponentTexts.length = 1 then 0 else (k : Int) - 1) := by
      split <;> omega
    rw [hind] at hinf
    exact printFailure_infix F message spec false s _ htexts hloc hinf
  intro m hm
  simp only [List.mem_cons, List.mem_singleton, List.not_mem_nil, or_false] at hm
  rcases hm with rfl | rfl | rfl
  · exact ⟨hsucc _, hverb _⟩
  · exact ⟨hsucc _, hverb _⟩
  · exact ⟨hsucc _, hverb _⟩

/-- C7 (counterexample): on the spec "Suite", "runs fast" with Failure.ComponentIndex = 0 and
ComponentType It, neither mode renders the component text "Suite" at all: the loop starts at
index 1. -/
theorem C7_counterexample :
    (AnnounceSpecFailed sampleFormatter
        { sampleSpec with Failure := { sampleFailure with ComponentIndex := 0 } } true
        (New false)).out
      = [.println 0 "• Failure [2.000 seconds]", .print 0 "runs fast ", .printNewLine,
         .print 0 "(suite_test.go:7)", .printNewLine, .printNewLine,
         .println 1 "expected true", .printNewLine, .println 1 "suite_test.go:9",
         .printDelimiter] ∧
    (AnnounceSpecFailed sampleFormatter
        { sampleSpec with Failure := { sampleFailure with ComponentIndex := 0 } } false
        (New false)).out
      = [.println 0 "• Failure [2.000 seconds]", .println 0 "runs fast",
         .println 0 "(suite_test.go:7)", .printNewLine, .println 0 "expected true",
         .printNewLine, .println 0 "suite_test.go:9", .printDelimiter] ∧
    PrintEvent.print 0 "[It] Suite " ∉
      (AnnounceSpecFailed sampleFormatter
        { sampleSpec with Failure := { sampleFailure with ComponentIndex := 0 } } true
        (New false)).out ∧
    PrintEvent.println 0 "Suite [It]" ∉
      (AnnounceSpecFailed sampleFormatter
        { sampleSpec with Failure := { sampleFailure with ComponentIndex := 0 } } false
        (New false)).out := by
  decide

theorem C7_witness :
    sampleSpec.ComponentCodeLocations.length = sampleSpec.ComponentTexts.length ∧
    sampleSpec.Failure.ComponentIndex = ((1 : Nat) : Int) ∧
    1 < sampleSpec.ComponentTexts.length ∧
    PrintEvent.print 0 "[It] runs fast " ∈
      (AnnounceSpecFailed sampleFormatter sampleSpec true (New false)).out ∧
    [PrintEvent.println 0 "runs fast [It]", PrintEvent.println 0 "(suite_test.go:7)"]
      <:+: (AnnounceSpecFailed sampleFormatter sampleSpec false (New false)).out :=
  ⟨by decide, by decide, by decide,
    C7_failing_component_is_highlighted sampleFormatter (New false) sampleSpec 1 "It"
      (by decide) (by decide) (by decide) (Or.inl (by decide)) (by decide) _
      (List.mem_cons_self _ _)⟩

/-- C8: for every spec with at least one component text and one code location per text,
printCodeLocationBlock in verbose mode returns 0 for one component text and
len(ComponentTexts) - 2 otherwise (the number of rendered levels minus one), and in succinct
mode returns 1, whatever the failure flag. -/
theorem C8_returned_indentation (F : Formatter) (spec : SpecSummary) (failure : Bool)
    (s : consoleStenographer)
    (htexts : 1 ≤ spec.ComponentTexts.length)
    (hloc : spec.ComponentCodeLocations.length = spec.ComponentTexts.length) :
    (printCodeLocationBlock F spec failure false s).exit
        = .returned (if spec.ComponentTexts.length = 1 then 0
                     else (spec.ComponentTexts.length : Int) - 2) ∧
    (printCodeLocationBlock F spec failure true s).exit = .returned 1 := by
  constructor
  · rw [printCodeLocationBlock_eq F spec failure false s htexts hloc]; simp
  · rw [printCodeLocationBlock_eq F spec failure true s htexts hloc]; simp

theorem C8_witness :
    1 ≤ sampleSpec.ComponentTexts.length ∧
    sampleSpec.ComponentCodeLocations.length = sampleSpec.ComponentTexts.length ∧
    (printCodeLocationBlock sampleFormatter sampleSpec false false (New false)).exit
      = .returned 0 ∧
    (printCodeLocationBlock sampleFormatter sampleSpec false true (New false)).exit
      = .returned 1 :=
  ⟨by decide, by decide,
    C8_returned_indentation sampleFormatter sampleSpec false (New false) (by decide) (by decide)⟩

/-! ## The measurement report -/

theorem measurementReport_loop_mem (F : Formatter) (s : consoleStenographer) (x : String) :
    ∀ (rest : List (String × SpecMeasurement)) (i : Nat) (message : List String),
      (x ∈ message ∨ ∃ p ∈ rest,
        x = colorize s boldStyle p.2.Name ++ ":\n" ++ "" ++ "  "
          ++ p.2.SmallestLabel ++ ": "
          ++ colorize s greenColor (F.float3 p.2.Smallest) ++ p.2.Units
          ++ "\n  " ++ p.2.LargestLabel ++ ": "
          ++ colorize s redColor (F.float3 p.2.Largest) ++ p.2.Units
          ++ "\n  " ++ p.2.AverageLabel ++ ": "
          ++ colorize s cyanColor (F.float3 p.2.Average) ++ p.2.Units
          ++ " ± "
          ++ colorize s cyanColor (F.float3 p.2.StdDeviation) ++ p.2.Units) →
      x ∈ measurementReport.loop F s i message rest := by
  intro rest
  induction rest with
  | nil =>
      intro i message h
      rcases h with h | ⟨p, hp, _⟩
      · simpa [measurementReport.loop] using h
      · simp at hp
  | cons p rest ih =>
      intro i message h
      obtain ⟨key, measurement⟩ := p
      unfold measurementReport.loop
      apply ih
      rcases h with h | ⟨q, hq, hx⟩
      · left
        cases measurement.Info <;> by_cases hi : i > 0 <;> simp [hi, h]
      · rcases List.mem_cons.mp hq with rfl | hq
        · left
          cases measurement.Info <;> by_cases hi : i > 0 <;> simp [hi, hx]
        · exact Or.inr ⟨q, hq, hx⟩

/-- C9: for every spec whose measurement mapping is empty, measurementReport returns exactly
"Found no measurements", for every receiver (color flag) and every NumberOfSamples. -/
theorem C9_no_measurements (F : Formatter) (s : consoleStenographer) (spec : SpecSummary)
    (h : spec.Measurements = []) :
    measurementReport F s spec = "Found no measurements" := by
  simp [measurementReport, h]

theorem C9_witness :
    sampleSpec.Measurements = [] ∧
    measurementReport sampleFormatter (New true) sampleSpec = "Found no measurements" :=
  ⟨rfl, C9_no_measurements sampleFormatter (New true) sampleSpec rfl⟩

/-- C10 (amended): with color disabled, for every measurement of the spec, measurementReport
is the join by newlines of a message list that holds the measurement block: the line
"name:" followed by the two-space-indented lines "smallestLabel: smallest+units",
"largestLabel: largest+units" and "averageLabel: average+units ± stdDeviation+units", where
the units text follows each rendered number directly, with no space between them. -/
theorem C10_measurement_block (F : Formatter) (s : consoleStenographer) (spec : SpecSummary)
    (name : String) (m : SpecMeasurement)
    (hc : s.color = false) (hm : (name, m) ∈ spec.Measurements) :
    measurementReport F s spec = String.intercalate "\n" (measurementReport.message F s spec) ∧
    (m.Name ++ ":\n"
        ++ "  " ++ m.SmallestLabel ++ ": " ++ F.float3 m.Smallest ++ m.Units
        ++ "\n  " ++ m.LargestLabel ++ ": " ++ F.float3 m.Largest ++ m.Units
        ++ "\n  " ++ m.AverageLabel ++ ": " ++ F.float3 m.Average ++ m.Units
        ++ " ± " ++ F.float3 m.StdDeviation ++ m.Units)
      ∈ measurementReport.message F s spec := by
  constructor
  · have hne : spec.Measurements ≠ [] := List.ne_nil_of_mem hm
    simp [measurementReport, hne]
  · unfold measurementReport.message
    apply measurementReport_loop_mem
    right
    exact ⟨(name, m), hm, by simp [colorize, hc]⟩

theorem C10_witness :
    (New false).color = false ∧
    ("runtime", sampleMeasurement) ∈ sampleMeasurementSpec.Measurements ∧
    "runtime:\n  Fastest Time: 1.000s\n  Slowest Time: 3.000s\n  Average Time: 2.000s ± 1.000s"
      ∈ measurementReport.message sampleFormatter (New false) sampleMeasurementSpec :=
  ⟨rfl, by decide,
    (C10_measurement_block sampleFormatter (New false) sampleMeasurementSpec "runtime"
      sampleMeasurement rfl (by decide)).2⟩

/-- C10 (counterexample): for the measurement "runtime" with units "s" the report reads
"Fastest Time: 1.000s", and the block with a space before the units is not part of it. -/
theorem C10_counterexample :
    measurementReport sampleFormatter (New false) sampleMeasurementSpec
      = "Ran 1 samples:\nruntime:\n  Fastest Time: 1.000s\n  Slowest Time: 3.000s\n  Average Time: 2.000s ± 1.000s" ∧
    specMeasurementBlock sampleFormatter sampleMeasurement
      = "runtime:\n  Fastest Time: 1.000 s\n  Slowest Time: 3.000 s\n  Average Time: 2.000 s ± 1.000 s" ∧
    specMeasurementBlock sampleFormatter sampleMeasurement
      ∉ measurementReport.message sampleFormatter (New false) sampleMeasurementSpec := by
  decide

/-! ## Frame lemmas: what a call does to the receiver -/

theorem index_s {α : Type} (xs : List α) (i : Int) (s : consoleStenographer) :
    (index xs i s).s = s := by
  unfold index
  split
  · split <;> rfl
  · rfl

theorem index_out {α : Type} (xs : List α) (i : Int) (s : consoleStenographer) :
    (index xs i s).out = [] := by
  unfold index
  split
  · split <;> rfl
  · rfl

theorem slice_s {α : Type} (xs : List α) (low high : Int) (s : consoleStenographer) :
    (slice xs low high s).s = s := by
  unfold slice
  split <;> rfl

/-- Sequencing keeps the receiver when both parts do. -/
theorem Method_bind_s {α β : Type} (m : Method α) (f : α → Method β) (s : consoleStenographer)
    (hm : (m s).s = s) (hf : ∀ a, (f a s).s = s) : (Method.bind m f s).s = s := by
  unfold Method.bind
  cases h : (m s).exit with
  | returned a => simp only [hm]; exact hf a
  | panicked p => exact hm

theorem printCodeLocationBlock_loop_s (F : Formatter) (spec : SpecSummary)
    (failure succinct : Bool) :
    ∀ (idxs : List Nat) (indentation : Int) (s : consoleStenographer),
      (printCodeLocationBlock.loop F spec failure succinct idxs indentation s).s = s := by
  intro idxs
  induction idxs with
  | nil => intro indentation s; simp [printCodeLocationBlock.loop]
  | cons i rest ih =>
      intro indentation s
      unfold printCodeLocationBlock.loop
      by_cases hf : (failure && ((i : Int) == spec.Failure.ComponentIndex)) = true <;>
        cases succinct <;>
        simp only [hf, if_true, if_false, Bool.false_eq_true, Method_bind_apply] <;>
        repeat (first
          | exact ih _ _
          | rfl
          | exact index_s _ _ _
          | (apply Method_bind_s <;> intros))

theorem printCodeLocationBlock_s (F : Formatter) (spec : SpecSummary)
    (failure succinct : Bool) (s : consoleStenographer) :
    (printCodeLocationBlock F spec failure succinct s).s = s := by
  unfold printCodeLocationBlock
  by_cases h1 : spec.ComponentTexts.length = 1 <;> cases succinct <;>
    by_cases h0 : spec.ComponentTexts.length > 0 <;>
    simp only [h1, h0, if_true, if_false, Bool.false_eq_true, Method_bind_apply, Method_pure_apply] <;>
    repeat (first
      | exact printCodeLocationBlock_loop_s _ _ _ _ _ _ _
      | rfl
      | exact index_s _ _ _
      | (apply Method_bind_s <;> intros))

/-- Sequencing cannot bring the cursor back to Top when neither part can. -/
theorem Method_bind_notTop {α β : Type} (m : Method α) (f : α → Method β)
    (s : consoleStenographer)
    (hm : (m s).s.cursorState ≠ cursorStateTop)
    (hf : ∀ a s1, s1.cursorState ≠ cursorStateTop → (f a s1).s.cursorState ≠ cursorStateTop) :
    (Method.bind m f s).s.cursorState ≠ cursorStateTop := by
  unfold Method.bind
  cases h : (m s).exit with
  | returned a => exact hf a _ hm
  | panicked p => exact hm

theorem printBlockWithMessage_notTop (F : Formatter) (header message : String)
    (spec : SpecSummary) (succinct : Bool) (s : consoleStenographer)
    (hs : s.cursorState ≠ cursorStateTop) :
    (printBlockWithMessage F header message spec succinct s).s.cursorState ≠ cursorStateTop := by
  unfold printBlockWithMessage
  simp only [Method_bind_apply, Method_pure_apply]
  repeat (first
    | assumption
    | (rw [printCodeLocationBlock_s]; assumption)
    | focus (simp only [setCursorState]; intro h; cases h)
    | (apply Method_bind_notTop <;> intros)
    | rw [Method_bind_apply]
    | split)

set_option maxRecDepth 8000 in
theorem printFailure_notTop (F : Formatter) (message : String)
    (spec : SpecSummary) (succinct : Bool) (s : consoleStenographer)
    (hs : s.cursorState ≠ cursorStateTop) :
    (printFailure F message spec succinct s).s.cursorState ≠ cursorStateTop := by
  unfold printFailure
  simp only [Method_bind_apply, Method_pure_apply]
  repeat (first
    | assumption
    | (rw [printCodeLocationBlock_s]; assumption)
    | focus (simp only [setCursorState]; intro h; cases h)
    | (apply Method_bind_notTop <;> intros)
    | rw [Method_bind_apply]
    | split)

theorem AnnounceSpecWillRun_notTop (F : Formatter) (spec : SpecSummary)
    (s : consoleStenographer) (hs : s.cursorState ≠ cursorStateTop) :
    (AnnounceSpecWillRun F spec s).s.cursorState ≠ cursorStateTop := by
  unfold AnnounceSpecWillRun
  simp only [Method_bind_apply, Method_pure_apply]
  repeat (first
    | assumption
    | (rw [AnnounceSpecWillRun_loop_s]; assumption)
    | (rw [index_s]; assumption)
    | (rw [slice_s]; assumption)
    | focus (simp only [setCursorState]; intro h; cases h)
    | (apply Method_bind_notTop <;> intros)
    | rw [Method_bind_apply]
    | split)

/-! ## Joining strings -/

theorem intercalate_go_eq (sep : String) :
    ∀ (xs : List String) (acc : String),
      String.intercalate.go acc sep xs = acc ++ String.intercalate.go "" sep xs := by
  intro xs
  induction xs with
  | nil => intro acc; simp [String.intercalate.go]
  | cons x rest ih =>
      intro acc
      simp only [String.intercalate.go]
      rw [ih (acc ++ sep ++ x), ih ("" ++ sep ++ x)]
      simp only [String.append_assoc, String.empty_append]

theorem intercalate_cons_cons (sep x y : String) (ys : List String) :
    String.intercalate sep (x :: y :: ys) = x ++ sep ++ String.intercalate sep (y :: ys) := by
  simp only [String.intercalate, String.intercalate.go]
  rw [intercalate_go_eq sep ys (x ++ sep ++ y), intercalate_go_eq sep ys y]
  simp only [String.append_assoc]

theorem intercalate_cons_exists (sep x : String) (ys : List String) :
    ∃ b, String.intercalate sep (x :: ys) = x ++ b := by
  cases ys with
  | nil => exact ⟨"", by simp [String.intercalate, String.intercalate.go]⟩
  | cons y ys => exact ⟨sep ++ String.intercalate sep (y :: ys), by
      rw [intercalate_cons_cons, String.append_assoc]⟩

theorem intercalate_cons_of_ne_nil (sep x : String) (ys : List String) (h : ys ≠ []) :
    String.intercalate sep (x :: ys) = x ++ sep ++ String.intercalate sep ys := by
  cases ys with
  | nil => exact absurd rfl h
  | cons y ys => exact intercalate_cons_cons sep x y ys

theorem intercalate_append_exists (sep : String) :
    ∀ (xs : List String), ∃ a, ∀ (y : String) (ys : List String),
      String.intercalate sep (xs ++ y :: ys) = a ++ String.intercalate sep (y :: ys) := by
  intro xs
  induction xs with
  | nil => exact ⟨"", fun y ys => by simp⟩
  | cons x rest ih =>
      obtain ⟨a, ha⟩ := ih
      refine ⟨x ++ sep ++ a, fun y ys => ?_⟩
      rw [List.cons_append, intercalate_cons_of_ne_nil sep x _ (by simp), ha y ys]
      simp only [String.append_assoc]

/-! ## The loop of the measurement report -/

theorem measurementReport_loop_cons (F : Formatter) (s : consoleStenographer) (i : Nat)
    (message : List String) (key : String) (m : SpecMeasurement)
    (rest : List (String × SpecMeasurement)) :
    measurementReport.loop F s i message ((key, m) :: rest)
      = measurementReport.loop F s (i + 1)
          ((if i > 0 then message ++ ["\n"] else message)
            ++ (match m.Info with
                | some v => [sprintfV (some v)]
                | none => [])
            ++ [measurementReport.block F s m]) rest := by
  cases h : m.Info <;> simp [measurementReport.loop, measurementReport.block, h]

theorem measurementReport_loop_onto (F : Formatter) (s : consoleStenographer) :
    ∀ (rest : List (String × SpecMeasurement)) (i : Nat) (message : List String),
      measurementReport.loop F s i message rest
        = message ++ measurementReport.loop F s i [] rest := by
  intro rest
  induction rest with
  | nil => intro i message; simp [measurementReport.loop]
  | cons p rest ih =>
      intro i message
      obtain ⟨key, m⟩ := p
      rw [measurementReport_loop_cons, measurementReport_loop_cons, ih (i + 1) (_ ++ _),
        ih (i + 1) ((if i > 0 then [] ++ ["\n"] else []) ++ _ ++ _)]
      by_cases hi : i > 0 <;> simp [hi]

theorem measurementReport_loop_append (F : Formatter) (s : consoleStenographer) :
    ∀ (xs ys : List (String × SpecMeasurement)) (i : Nat) (message : List String),
      measurementReport.loop F s i message (xs ++ ys)
        = measurementReport.loop F s (i + xs.length)
            (measurementReport.loop F s i message xs) ys := by
  intro xs
  induction xs with
  | nil => intro ys i message; simp [measurementReport.loop]
  | cons p rest ih =>
      intro ys i message
      obtain ⟨key, m⟩ := p
      rw [List.cons_append, measurementReport_loop_cons, measurementReport_loop_cons, ih]
      simp only [List.length_cons]
      congr 1
      omega

/-- The message list when two measurements are visited one after the other. -/
theorem measurementReport_message_adjacent (F : Formatter) (s : consoleStenographer)
    (spec : SpecSummary) (pre post : List (String × SpecMeasurement))
    (k1 k2 : String) (m1 m2 : SpecMeasurement)
    (hM : spec.Measurements = pre ++ (k1, m1) :: (k2, m2) :: post) :
    ∃ L R, measurementReport.message F s spec
      = L ++ measurementReport.block F s m1 :: "\n" ::
          ((match m2.Info with
            | some v => [sprintfV (some v)]
            | none => []) ++ measurementReport.block F s m2 :: R) := by
  refine ⟨(if pre.length > 0 then
        measurementReport.loop F s 0
          ["Ran " ++ colorize s boldStyle (toString spec.NumberOfSamples) ++ " samples:"] pre
          ++ ["\n"]
      else
        measurementReport.loop F s 0
          ["Ran " ++ colorize s boldStyle (toString spec.NumberOfSamples) ++ " samples:"] pre)
      ++ (match m1.Info with
          | some v => [sprintfV (some v)]
          | none => []),
    measurementReport.loop F s (pre.length + 1 + 1) [] post, ?_⟩
  unfold measurementReport.message
  simp only [List.nil_append]
  rw [hM, measurementReport_loop_append, measurementReport_loop_cons,
    measurementReport_loop_cons, measurementReport_loop_onto]
  simp

/-- C11 (amended): for every spec in which a measurement m1 is visited directly before a
measurement m2, the string returned by measurementReport holds the block of m1, then three
newline characters (the end of the last line of the block and two empty lines), then the
freeform info line of m2 if it has one, then the block of m2: successive blocks are separated
by two empty lines. -/
theorem C11_blocks_separated_by_two_empty_lines (F : Formatter) (s : consoleStenographer)
    (spec : SpecSummary) (pre post : List (String × SpecMeasurement))
    (k1 k2 : String) (m1 m2 : SpecMeasurement)
    (hM : spec.Measurements = pre ++ (k1, m1) :: (k2, m2) :: post) :
    ∃ a b, measurementReport F s spec
      = a ++ measurementReport.block F s m1 ++ "\n" ++ "\n" ++ "\n"
          ++ measurementReport.infoLine m2 ++ measurementReport.block F s m2 ++ b := by
  obtain ⟨L, R, hmsg⟩ := measurementReport_message_adjacent F s spec pre post k1 k2 m1 m2 hM
  obtain ⟨a, ha⟩ := intercalate_append_exists "\n" L
  obtain ⟨b, hb⟩ := intercalate_cons_exists "\n" (measurementReport.block F s m2) R
  have hne : ¬ spec.Measurements.length = 0 := by simp [hM]
  refine ⟨a, b, ?_⟩
  unfold measurementReport
  rw [if_neg hne, hmsg, ha, intercalate_cons_cons]
  cases h : m2.Info with
  | none =>
      simp only [measurementReport.infoLine, h, List.nil_append]
      rw [intercalate_cons_cons, hb]
      simp only [String.append_assoc, String.empty_append]
  | some v =>
      simp only [measurementReport.infoLine, h, List.cons_append, List.nil_append]
      rw [intercalate_cons_cons, intercalate_cons_cons, hb]
      simp only [String.append_assoc]

theorem C11_witness :
    sampleInfoMeasurementSpec.Measurements
      = [] ++ ("runtime", sampleMeasurement) :: ("memory", sampleMemoryMeasurement) :: [] ∧
    ∃ a b, measurementReport sampleFormatter (New false) sampleInfoMeasurementSpec
      = a ++ measurementReport.block sampleFormatter (New false) sampleMeasurement
          ++ "\n" ++ "\n" ++ "\n"
          ++ measurementReport.infoLine sampleMemoryMeasurement
          ++ measurementReport.block sampleFormatter (New false) sampleMemoryMeasurement ++ b :=
  ⟨rfl, C11_blocks_separated_by_two_empty_lines sampleFormatter (New false)
    sampleInfoMeasurementSpec [] [] "runtime" "memory" sampleMeasurement sampleMemoryMeasurement
    rfl⟩

set_option maxRecDepth 20000 in
/-- C11 (counterexample): for two measurements "runtime" and "runtime2" the report has two
empty lines between the two blocks, and differs from the text with exactly one. -/
theorem C11_counterexample :
    measurementReport sampleFormatter (New false) sampleTwoMeasurementSpec
      = "Ran 2 samples:\nruntime:\n  Fastest Time: 1.000s\n  Slowest Time: 3.000s\n  Average Time: 2.000s ± 1.000s\n\n\nruntime2:\n  Fastest Time: 1.000s\n  Slowest Time: 3.000s\n  Average Time: 2.000s ± 1.000s" ∧
    measurementReport sampleFormatter (New false) sampleTwoMeasurementSpec
      ≠ "Ran 2 samples:\nruntime:\n  Fastest Time: 1.000s\n  Slowest Time: 3.000s\n  Average Time: 2.000s ± 1.000s\n\nruntime2:\n  Fastest Time: 1.000s\n  Slowest Time: 3.000s\n  Average Time: 2.000s ± 1.000s" := by
  decide

/-- C12: when the captured output is the empty string AnnounceCapturedOutput emits nothing
and leaves the receiver, hence the cursor state, unchanged, for every cursor state; when it
is non-empty the call emits the separator due for the cursor state (newline and delimiter
from Streaming, a newline from MidBlock, nothing otherwise) followed by the println of the
text, and leaves the cursor state MidBlock. -/
theorem C12_captured_output (spec : SpecSummary) (s : consoleStenographer) :
    (spec.CapturedOutput = "" →
      AnnounceCapturedOutput spec s = { out := [], s := s, exit := .returned () }) ∧
    (spec.CapturedOutput ≠ "" →
      AnnounceCapturedOutput spec s
        = { out :=
              (if s.cursorState = cursorStateStreaming then [.printNewLine, .printDelimiter]
               else if s.cursorState = cursorStateMidBlock then [.printNewLine] else [])
              ++ [.println 0 spec.CapturedOutput],
            s := { s with cursorState := cursorStateMidBlock },
            exit := .returned () }) := by
  constructor
  · intro h
    simp [AnnounceCapturedOutput, h]
  · intro h
    by_cases hs : s.cursorState = cursorStateStreaming <;>
      by_cases hb : s.cursorState = cursorStateMidBlock <;>
      simp [AnnounceCapturedOutput, Method.bind, self, h, hs, hb, printNewLine, printDelimiter,
        println, setCursorState]

theorem C12_witness :
    sampleSpec.CapturedOutput = "" ∧
    AnnounceCapturedOutput sampleSpec { color := false, cursorState := cursorStateStreaming }
      = { out := [], s := { color := false, cursorState := cursorStateStreaming },
          exit := .returned () } ∧
    AnnounceCapturedOutput { sampleSpec with CapturedOutput := "log line" }
        { color := false, cursorState := cursorStateStreaming }
      = { out := [.printNewLine, .printDelimiter, .println 0 "log line"],
          s := { color := false, cursorState := cursorStateMidBlock },
          exit := .returned () } :=
  ⟨rfl,
    (C12_captured_output sampleSpec { color := false, cursorState := cursorStateStreaming }).1 rfl,
    (C12_captured_output { sampleSpec with CapturedOutput := "log line" }
      { color := false, cursorState := cursorStateStreaming }).2 (by decide)⟩

/-- C13: for every cursor state and every argument, AnnounceSuite, AnnounceParallelRun,
AnnounceAggregatedParallelRun and AnnounceSpecRunCompletion (succinct or verbose) and verbose
AnnounceNumberOfSpecs return, leave the receiver unchanged and emit no printDelimiter;
succinct AnnounceNumberOfSpecs returns, sets the cursor state to Streaming and emits no
printDelimiter. -/
theorem C13_header_footer_frame (F : Formatter) (s : consoleStenographer)
    (description : String) (randomSeed : Int) (randomizingAll : Bool)
    (node nodes specsToRun totalSpecs total : Int) (summary : SuiteSummary) (succinct : Bool) :
    (∀ m ∈ [AnnounceSuite description randomSeed randomizingAll succinct,
        AnnounceParallelRun node nodes specsToRun totalSpecs succinct,
        AnnounceAggregatedParallelRun nodes succinct,
        AnnounceSpecRunCompletion F summary succinct,
        AnnounceNumberOfSpecs specsToRun total false],
      (m s).exit = .returned () ∧ (m s).s = s ∧ PrintEvent.printDelimiter ∉ (m s).out) ∧
    (AnnounceNumberOfSpecs specsToRun total true s).exit = .returned () ∧
    (AnnounceNumberOfSpecs specsToRun total true s).s
      = { s with cursorState := cursorStateStreaming } ∧
    PrintEvent.printDelimiter ∉ (AnnounceNumberOfSpecs specsToRun total true s).out := by
  refine ⟨?_, ?_, ?_, ?_⟩
  · intro m hm
    simp only [List.mem_cons, List.mem_singleton, List.not_mem_nil, or_false] at hm
    rcases hm with rfl | rfl | rfl | rfl | rfl
    · cases succinct <;> cases randomizingAll <;>
        simp [AnnounceSuite, Method.bind, self, print, printBanner, printNewLine]
    · cases succinct <;>
        simp [AnnounceParallelRun, Method.bind, self, print, println, printNewLine]
    · cases succinct <;>
        simp [AnnounceAggregatedParallelRun, Method.bind, self, print, println, printNewLine]
    · cases succinct <;> cases h : summary.SuiteSucceeded <;>
        simp [AnnounceSpecRunCompletion, Method.bind, self, print, println, printNewLine, h]
    · simp [AnnounceNumberOfSpecs, Method.bind, self, print, println, printNewLine]
  · simp [AnnounceNumberOfSpecs, Method.bind, self, print, setCursorState]
  · simp [AnnounceNumberOfSpecs, Method.bind, self, print, setCursorState]
  · simp [AnnounceNumberOfSpecs, Method.bind, self, print, setCursorState]

/-- With one code location per component text `printCodeLocationBlock` returns. -/
theorem printCodeLocationBlock_returns (F : Formatter) (spec : SpecSummary)
    (failure succinct : Bool) (s : consoleStenographer)
    (hloc : spec.ComponentCodeLocations.length = spec.ComponentTexts.length) :
    ∃ indentation, printCodeLocationBlock F spec failure succinct s
      = { out := (printCodeLocationBlock F spec failure succinct s).out, s := s,
          exit := .returned indentation } := by
  by_cases h : 1 ≤ spec.ComponentTexts.length
  · refine ⟨if succinct then 1
        else if spec.ComponentTexts.length = 1 then 0
        else (spec.ComponentTexts.length : Int) - 2,
      Step_eq_of _ _ _ (printCodeLocationBlock_s F spec failure succinct s) ?_⟩
    rw [printCodeLocationBlock_eq F spec failure succinct s h hloc]
  · have hnil : spec.ComponentTexts = [] := by
      cases hT : spec.ComponentTexts with
      | nil => rfl
      | cons t ts => rw [hT] at h; simp at h
    refine ⟨if succinct then 1 else -1,
      Step_eq_of _ _ _ (printCodeLocationBlock_s F spec failure succinct s) ?_⟩
    cases succinct <;>
      simp [printCodeLocationBlock, hnil, Method.bind, printCodeLocationBlock.loop, printNewLine]

/-- C14: for every spec with one code location per component text, whichever of
AnnounceSpecFailed/TimedOut/Panicked is called, the events after those of the nested block are,
when the state is panicked: a newline, the failure message, the forwarded panic value, the
failure location, a newline, the label "Full Stack Trace", the full stack trace text and the
closing delimiter; and otherwise: a newline, the failure message, a newline, the failure
location and the closing delimiter; all at the indentation the nested block returned. -/
theorem C14_failure_block_tail (F : Formatter) (s : consoleStenographer) (spec : SpecSummary)
    (succinct : Bool)
    (hloc : spec.ComponentCodeLocations.length = spec.ComponentTexts.length) :
    ∀ m ∈ [AnnounceSpecFailed F spec succinct, AnnounceSpecTimedOut F spec succinct,
        AnnounceSpecPanicked F spec succinct],
      ∃ pre indentation,
        (printCodeLocationBlock F spec true succinct s).exit = .returned indentation ∧
        (m s).out = pre ++ (printCodeLocationBlock F spec true succinct s).out ++
          (if spec.State = .SpecStatePanicked then
            [.printNewLine,
             .println indentation (colorize s (redColor ++ boldStyle) spec.Failure.Message),
             .println indentation (colorize s redColor (sprintfV spec.Failure.ForwardedPanic)),
             .println indentation (F.location spec.Failure.Location),
             .printNewLine,
             .println indentation (colorize s redColor "Full Stack Trace"),
             .println indentation spec.Failure.Location.FullStackTrace,
             .printDelimiter]
           else
            [.printNewLine,
             .println indentation (colorize s redColor spec.Failure.Message),
             .printNewLine,
             .println indentation (F.location spec.Failure.Location),
             .printDelimiter]) := by
  obtain ⟨indentation, h⟩ := printCodeLocationBlock_returns F spec true succinct s hloc
  have hexit : (printCodeLocationBlock F spec true succinct s).exit = .returned indentation := by
    rw [h]
  have key : ∀ message, ∃ pre,
      (printFailure F message spec succinct s).out
        = pre ++ (printCodeLocationBlock F spec true succinct s).out ++
          (if spec.State = .SpecStatePanicked then
            [.printNewLine,
             .println indentation (colorize s (redColor ++ boldStyle) spec.Failure.Message),
             .println indentation (colorize s redColor (sprintfV spec.Failure.ForwardedPanic)),
             .println indentation (F.location spec.Failure.Location),
             .printNewLine,
             .println indentation (colorize s redColor "Full Stack Trace"),
             .println indentation spec.Failure.Location.FullStackTrace,
             .printDelimiter]
           else
            [.printNewLine,
             .println indentation (colorize s redColor spec.Failure.Message),
             .printNewLine,
             .println indentation (F.location spec.Failure.Location),
             .printDelimiter]) := by
    intro message
    refine ⟨(if s.cursorState = cursorStateStreaming then [.printNewLine, .printDelimiter]
             else if s.cursorState = cursorStateMidBlock then [.printNewLine] else [])
            ++ [.println 0 (colorize s (redColor ++ boldStyle)
                  (message ++ " [" ++ F.seconds3 spec.RunTime ++ " seconds]"))], ?_⟩
    rw [printFailure_of F message spec succinct s _ _ h]
    by_cases hp : spec.State = .SpecStatePanicked <;> simp [hp]
  intro m hm
  simp only [List.mem_cons, List.mem_singleton, List.not_mem_nil, or_false] at hm
  rcases hm with rfl | rfl | rfl
  · obtain ⟨pre, hpre⟩ := key "• Failure"
    exact ⟨pre, indentation, hexit, hpre⟩
  · obtain ⟨pre, hpre⟩ := key "•... Timeout"
    exact ⟨pre, indentation, hexit, hpre⟩
  · obtain ⟨pre, hpre⟩ := key "•! Panic"
    exact ⟨pre, indentation, hexit, hpre⟩

theorem C14_witness :
    samplePanickedSpec.ComponentCodeLocations.length = samplePanickedSpec.ComponentTexts.length ∧
    samplePanickedSpec.State = .SpecStatePanicked ∧
    (AnnounceSpecPanicked sampleFormatter samplePanickedSpec false (New false)).out
      = [.println 0 "•! Panic [2.000 seconds]", .println 0 "runs fast [It]",
         .println 0 "(suite_test.go:7)", .printNewLine, .println 0 "Test Panicked",
         .println 0 "index out of range", .println 0 "suite_test.go:9", .printNewLine,
         .println 0 "Full Stack Trace", .println 0 "goroutine 1", .printDelimiter] ∧
    ∃ pre indentation,
      (printCodeLocationBlock sampleFormatter samplePanickedSpec true false (New false)).exit
        = .returned indentation ∧
      (AnnounceSpecPanicked sampleFormatter samplePanickedSpec false (New false)).out
        = pre ++ (printCodeLocationBlock sampleFormatter samplePanickedSpec true false
            (New false)).out ++
          [.printNewLine, .println indentation "Test Panicked",
           .println indentation "index out of range", .println indentation "suite_test.go:9",
           .printNewLine, .println indentation "Full Stack Trace",
           .println indentation "goroutine 1", .printDelimiter] :=
  ⟨by decide, rfl, by decide,
    C14_failure_block_tail sampleFormatter (New false) samplePanickedSpec false (by decide) _
      (List.mem_cons_of_mem _ (List.mem_cons_of_mem _ (List.mem_cons_self _ _)))⟩

/-- C15: when succinct is true and the suite succeeded, AnnounceSpecRunCompletion emits only
the print of " SUCCESS! duration "; in every other case it emits a newline, the line
"Ran run of total Specs in t seconds" styled bold green when the suite succeeded and bold
red when it did not, and the print of "status -- p Passed | f Failed | n Pending | k Skipped "
whose status word is SUCCESS! when the suite succeeded and FAIL! when it did not. -/
theorem C15_run_completion (F : Formatter) (s : consoleStenographer) (summary : SuiteSummary)
    (succinct : Bool) :
    (succinct = true ∧ summary.SuiteSucceeded = true →
      AnnounceSpecRunCompletion F summary succinct s
        = { out := [.print 0 (" " ++ colorize s greenColor "SUCCESS!" ++ " "
                      ++ F.duration summary.RunTime ++ " ")],
            s := s, exit := .returned () }) ∧
    (¬ (succinct = true ∧ summary.SuiteSucceeded = true) →
      AnnounceSpecRunCompletion F summary succinct s
        = { out :=
              [.printNewLine,
               .println 0 (colorize s
                  (boldStyle ++ (if summary.SuiteSucceeded then greenColor else redColor))
                  ("Ran " ++ toString summary.NumberOfSpecsThatWillBeRun ++ " of "
                    ++ toString summary.NumberOfTotalSpecs ++ " Specs in "
                    ++ F.seconds3 summary.RunTime ++ " seconds")),
               .print 0
                  ((if summary.SuiteSucceeded then colorize s (boldStyle ++ greenColor) "SUCCESS!"
                    else colorize s (boldStyle ++ redColor) "FAIL!")
                    ++ " -- "
                    ++ colorize s (greenColor ++ boldStyle)
                        (toString summary.NumberOfPassedSpecs ++ " Passed")
                    ++ " | "
                    ++ colorize s (redColor ++ boldStyle)
                        (toString summary.NumberOfFailedSpecs ++ " Failed")
                    ++ " | "
                    ++ colorize s (yellowColor ++ boldStyle)
                        (toString summary.NumberOfPendingSpecs ++ " Pending")
                    ++ " | "
                    ++ colorize s (cyanColor ++ boldStyle)
                        (toString summary.NumberOfSkippedSpecs ++ " Skipped")
                    ++ " ")],
            s := s, exit := .returned () }) := by
  constructor
  · rintro ⟨h1, h2⟩
    simp [AnnounceSpecRunCompletion, Method.bind, self, print, h1, h2]
  · intro h
    cases succinct <;> cases h2 : summary.SuiteSucceeded <;>
      simp_all [AnnounceSpecRunCompletion, Method.bind, self, print, println, printNewLine]

theorem C15_witness :
    ¬ (false = true ∧ sampleSuiteSummary.SuiteSucceeded = true) ∧
    AnnounceSpecRunCompletion sampleFormatter sampleSuiteSummary false (New false)
      = { out := [.printNewLine, .println 0 "Ran 10 of 10 Specs in 3.000 seconds",
                  .print 0 "FAIL! -- 8 Passed | 2 Failed | 0 Pending | 0 Skipped "],
          s := New false, exit := .returned () } ∧
    (AnnounceSpecRunCompletion sampleFormatter sampleSuiteSummary false (New true)).out.take 2
      = [.printNewLine,
         .println 0 "\x1b[1m\x1b[91mRan 10 of 10 Specs in 3.000 seconds\x1b[0m"] ∧
    AnnounceSpecRunCompletion sampleFormatter { sampleSuiteSummary with SuiteSucceeded := true }
        true (New false)
      = { out := [.print 0 " SUCCESS! 3s "], s := New false, exit := .returned () } :=
  ⟨by decide,
    (C15_run_completion sampleFormatter (New false) sampleSuiteSummary false).2 (by decide),
    by rw [(C15_run_completion sampleFormatter (New true) sampleSuiteSummary false).2
      (by decide)]; decide,
    (C15_run_completion sampleFormatter (New false)
      { sampleSuiteSummary with SuiteSucceeded := true } true).1 ⟨rfl, rfl⟩⟩

/-- C16: for every argument and every cursor state, the succinct variants of AnnounceSuite,
AnnounceParallelRun, AnnounceAggregatedParallelRun and AnnounceNumberOfSpecs emit exactly one
event, a print at indentation 0: no newline event and no delimiter. -/
theorem C16_succinct_headers_one_print (s : consoleStenographer)
    (description : String) (randomSeed : Int) (randomizingAll : Bool)
    (node nodes specsToRun totalSpecs total : Int) :
    (AnnounceSuite description randomSeed randomizingAll true s).out
      = [.print 0 ("[" ++ toString randomSeed ++ "] " ++ colorize s boldStyle description ++ " ")] ∧
    (AnnounceParallelRun node nodes specsToRun totalSpecs true s).out
      = [.print 0 ("- node #" ++ toString node ++ " ")] ∧
    (AnnounceAggregatedParallelRun nodes true s).out
      = [.print 0 ("- " ++ toString nodes ++ " nodes ")] ∧
    (AnnounceNumberOfSpecs specsToRun total true s).out
      = [.print 0 ("- " ++ toString specsToRun ++ "/" ++ toString total ++ " specs ")] := by
  refine ⟨?_, ?_, ?_, ?_⟩
  · simp [AnnounceSuite, Method.bind, self, print]
  · simp [AnnounceParallelRun, Method.bind, self, print]
  · simp [AnnounceAggregatedParallelRun, Method.bind, self, print]
  · simp [AnnounceNumberOfSpecs, Method.bind, self, print, setCursorState]

theorem AnnounceSpecWillRun_loop_cons_out (i : Nat) (text : String) (rest : List String)
    (s : consoleStenographer) :
    (AnnounceSpecWillRun.loop i (text :: rest) s).out
      = .print 0 (colorize s (alternatingColors.get ⟨i % 2, Nat.mod_lt i (by decide)⟩) text ++ " ")
        :: (AnnounceSpecWillRun.loop (i + 1) rest s).out := by
  simp [AnnounceSpecWillRun.loop, Method.bind, self, print]

/-- The first event of `AnnounceSpecWillRun` when no separator is due. -/
theorem AnnounceSpecWillRun_head (F : Formatter) (spec : SpecSummary) (s : consoleStenographer)
    (hs : s.cursorState ≠ cursorStateStreaming) :
    (spec.ComponentTexts.length < 2 → (AnnounceSpecWillRun F spec s).out = []) ∧
    (∀ t0 t1 rest, spec.ComponentTexts = t0 :: t1 :: rest →
      (AnnounceSpecWillRun F spec s).out.head?
        = some (.print 0
            (if spec.ComponentTexts.length > 2 then colorize s defaultStyle t1 ++ " "
             else colorize s boldStyle t1))) := by
  constructor
  · intro h
    have hsl : ¬ ((1 : Int) ≤ (spec.ComponentTexts.length : Int) - 1) := by omega
    simp [AnnounceSpecWillRun, Method.bind, self, hs, slice, hsl]
  · intro t0 t1 rest hT
    have hlen : 2 ≤ spec.ComponentTexts.length := by rw [hT]; simp
    have hslice : slice spec.ComponentTexts 1 ((spec.ComponentTexts.length : Int) - 1) s
        = { out := [], s := s,
            exit := .returned ((spec.ComponentTexts.drop 1).take
              (spec.ComponentTexts.length - 1 - 1)) } := by
      have h1 : (1 : Int) ≤ (spec.ComponentTexts.length : Int) - 1 := by omega
      have h2 : ((spec.ComponentTexts.length : Int) - 1).toNat
          = spec.ComponentTexts.length - 1 := by omega
      simp [slice, h1, h2]
    cases rest with
    | nil =>
        have hidx : index spec.ComponentTexts ((spec.ComponentTexts.length : Int) - 1) s
            = { out := [], s := s, exit := .returned t1 } := by
          rw [hT]; simp [index]
        have h2 : ¬ spec.ComponentTexts.length > 2 := by rw [hT]; simp
        have htake : List.take (spec.ComponentTexts.length - 1 - 1) spec.ComponentTexts.tail
            = [] := by rw [hT]; simp
        simp [AnnounceSpecWillRun, Method.bind, self, hs, hslice, h2, htake, hidx,
          AnnounceSpecWillRun.loop, print]
    | cons t2 rest =>
        have h2 : spec.ComponentTexts.length > 2 := by rw [hT]; simp
        have htake : List.take (spec.ComponentTexts.length - 1 - 1) spec.ComponentTexts.tail
            = t1 :: List.take rest.length (t2 :: rest) := by rw [hT]; simp
        simp [AnnounceSpecWillRun, Method.bind, self, hs, hslice, h2, htake,
          AnnounceSpecWillRun_loop_cons_out, AnnounceSpecWillRun_loop_s,
          AnnounceSpecWillRun_loop_exit, alternatingColors]

/-- C17: when the cursor state is Top or EndBlock, the first event of
AnnounceSpecFailed/TimedOut/Panicked, AnnounceSuccesfulSlowSpec, AnnounceSuccesfulMeasurement
and noisy AnnouncePendingSpec is the println of their header line, that of
AnnounceCapturedOutput with non-empty captured text is the println of the text, and
AnnounceSpecWillRun never starts with a newline or a delimiter: with two or more component
texts its first event is the print of the component text at index 1. -/
theorem C17_no_separator_from_top_or_endBlock (F : Formatter) (s : consoleStenographer)
    (spec : SpecSummary) (succinct : Bool)
    (hs : s.cursorState = cursorStateTop ∨ s.cursorState = cursorStateEndBlock) :
    (AnnounceSpecFailed F spec succinct s).out.head?
      = some (.println 0 (colorize s (redColor ++ boldStyle)
          ("• Failure" ++ " [" ++ F.seconds3 spec.RunTime ++ " seconds]"))) ∧
    (AnnounceSpecTimedOut F spec succinct s).out.head?
      = some (.println 0 (colorize s (redColor ++ boldStyle)
          ("•... Timeout" ++ " [" ++ F.seconds3 spec.RunTime ++ " seconds]"))) ∧
    (AnnounceSpecPanicked F spec succinct s).out.head?
      = some (.println 0 (colorize s (redColor ++ boldStyle)
          ("•! Panic" ++ " [" ++ F.seconds3 spec.RunTime ++ " seconds]"))) ∧
    (AnnounceSuccesfulSlowSpec F spec succinct s).out.head?
      = some (.println 0 (colorize s greenColor
          ("• [SLOW TEST:" ++ F.seconds3 spec.RunTime ++ " seconds]"))) ∧
    (AnnounceSuccesfulMeasurement F spec succinct s).out.head?
      = some (.println 0 (colorize s greenColor "• [MEASUREMENT]")) ∧
    (AnnouncePendingSpec F spec true s).out.head?
      = some (.println 0 (colorize s yellowColor "P [PENDING]")) ∧
    (spec.CapturedOutput ≠ "" →
      (AnnounceCapturedOutput spec s).out.head? = some (.println 0 spec.CapturedOutput)) ∧
    (AnnounceSpecWillRun F spec s).out.head? ≠ some .printNewLine ∧
    (AnnounceSpecWillRun F spec s).out.head? ≠ some .printDelimiter ∧
    (∀ t0 t1 rest, spec.ComponentTexts = t0 :: t1 :: rest →
      (AnnounceSpecWillRun F spec s).out.head?
        = some (.print 0
            (if spec.ComponentTexts.length > 2 then colorize s defaultStyle t1 ++ " "
             else colorize s boldStyle t1))) := by
  have h1 : s.cursorState ≠ cursorStateStreaming := by
    rcases hs with h | h <;> rw [h] <;> decide
  have h2 : s.cursorState ≠ cursorStateMidBlock := by
    rcases hs with h | h <;> rw [h] <;> decide
  have hw := AnnounceSpecWillRun_head F spec s h1
  have hwne : ∀ e, (∀ i t, e ≠ PrintEvent.print i t) →
      (AnnounceSpecWillRun F spec s).out.head? ≠ some e := by
    intro e he
    cases hT : spec.ComponentTexts with
    | nil => rw [hw.1 (by rw [hT]; simp)]; simp
    | cons t0 ts =>
        cases ts with
        | nil => rw [hw.1 (by rw [hT]; simp)]; simp
        | cons t1 rest =>
            rw [hw.2 t0 t1 rest hT]
            intro h
            exact he _ _ (Option.some.inj h).symm
  refine ⟨?_, ?_, ?_, ?_, ?_, ?_, ?_, ?_, ?_, hw.2⟩
  · simp [AnnounceSpecFailed, printFailure, Method.bind, self, h1, h2, println]
  · simp [AnnounceSpecTimedOut, printFailure, Method.bind, self, h1, h2, println]
  · simp [AnnounceSpecPanicked, printFailure, Method.bind, self, h1, h2, println]
  · simp [AnnounceSuccesfulSlowSpec, printBlockWithMessage, Method.bind, self, h1, h2, println]
  · simp [AnnounceSuccesfulMeasurement, printBlockWithMessage, Method.bind, self, h1, h2,
      println]
  · simp [AnnouncePendingSpec, printBlockWithMessage, Method.bind, self, h1, h2, println]
  · intro hc
    simp [AnnounceCapturedOutput, Method.bind, self, h1, h2, hc, println]
  · exact hwne _ (fun _ _ h => by cases h)
  · exact hwne _ (fun _ _ h => by cases h)

theorem C17_witness :
    ((New false).cursorState = cursorStateTop ∨ (New false).cursorState = cursorStateEndBlock) ∧
    (AnnounceSpecFailed sampleFormatter sampleSpec true (New false)).out.head?
      = some (.println 0 "• Failure [2.000 seconds]") ∧
    (AnnounceSpecWillRun sampleFormatter sampleSpec (New false)).out.head?
      = some (.print 0 "runs fast") ∧
    (AnnounceCapturedOutput { sampleSpec with CapturedOutput := "log line" } (New false)).out.head?
      = some (.println 0 "log line") :=
  ⟨Or.inl rfl,
    (C17_no_separator_from_top_or_endBlock sampleFormatter (New false) sampleSpec true
      (Or.inl rfl)).1,
    (C17_no_separator_from_top_or_endBlock sampleFormatter (New false) sampleSpec true
      (Or.inl rfl)).2.2.2.2.2.2.2.2.2 "Suite" "runs fast" [] rfl,
    (C17_no_separator_from_top_or_endBlock sampleFormatter (New false)
      { sampleSpec with CapturedOutput := "log line" } true (Or.inl rfl)).2.2.2.2.2.2.1
      (by decide)⟩

/-- C18: for every spec with exactly two component texts and two code locations,
printCodeLocationBlock without failure highlighting in verbose mode emits exactly two events,
the println of the second component text at indentation 0 and the println of its
parenthesised code location at indentation 0 (the first component text is not emitted), and
returns indentation 0. -/
theorem C18_two_component_texts_verbose (F : Formatter) (spec : SpecSummary)
    (s : consoleStenographer) (t0 t1 : String) (l0 l1 : CodeLocation)
    (hT : spec.ComponentTexts = [t0, t1]) (hL : spec.ComponentCodeLocations = [l0, l1]) :
    printCodeLocationBlock F spec false false s
      = { out := [.println 0 t1,
                  .println 0 (colorize s grayColor ("(" ++ F.location l1 ++ ")"))],
          s := s, exit := .returned 0 } := by
  simp [printCodeLocationBlock, printCodeLocationBlock.loop, hT, hL, List.range', Method.bind,
    self, println, index]

theorem C18_witness :
    sampleSpec.ComponentTexts = ["Suite", "runs fast"] ∧
    printCodeLocationBlock sampleFormatter sampleSpec false false (New false)
      = { out := [.println 0 "runs fast", .println 0 "(suite_test.go:7)"],
          s := New false, exit := .returned 0 } :=
  ⟨rfl, C18_two_component_texts_verbose sampleFormatter sampleSpec (New false) "Suite"
    "runs fast" _ _ rfl rfl⟩

/-- C19: for each of the fifteen operations of the Stenographer interface, every argument
and every receiver whose cursor state is not Top, the cursor state after the call is not Top,
whether the call returns or panics. -/
theorem C19_cursor_never_returns_to_top (F : Formatter) (s : consoleStenographer)
    (description : String) (randomSeed : Int) (randomizingAll : Bool)
    (node nodes specsToRun totalSpecs total : Int) (summary : SuiteSummary)
    (spec : SpecSummary) (succinct noisy : Bool)
    (hs : s.cursorState ≠ cursorStateTop) :
    ∀ m ∈ [AnnounceSuite description randomSeed randomizingAll succinct,
        AnnounceAggregatedParallelRun nodes succinct,
        AnnounceParallelRun node nodes specsToRun totalSpecs succinct,
        AnnounceNumberOfSpecs specsToRun total succinct,
        AnnounceSpecRunCompletion F summary succinct,
        AnnounceSpecWillRun F spec,
        AnnounceCapturedOutput spec,
        AnnounceSuccesfulSpec spec,
        AnnounceSuccesfulSlowSpec F spec succinct,
        AnnounceSuccesfulMeasurement F spec succinct,
        AnnouncePendingSpec F spec noisy,
        AnnounceSkippedSpec spec,
        AnnounceSpecTimedOut F spec succinct,
        AnnounceSpecPanicked F spec succinct,
        AnnounceSpecFailed F spec succinct],
      (m s).s.cursorState ≠ cursorStateTop := by
  intro m hm
  simp only [List.mem_cons, List.mem_singleton, List.not_mem_nil, or_false] at hm
  rcases hm with rfl | rfl | rfl | rfl | rfl | rfl | rfl | rfl | rfl | rfl | rfl | rfl | rfl
    | rfl | rfl
  · cases succinct <;> cases randomizingAll <;>
      simp [AnnounceSuite, Method.bind, self, print, printBanner, printNewLine, hs]
  · cases succinct <;>
      simp [AnnounceAggregatedParallelRun, Method.bind, self, print, println, printNewLine, hs]
  · cases succinct <;>
      simp [AnnounceParallelRun, Method.bind, self, print, println, printNewLine, hs]
  · cases succinct <;>
      simp [AnnounceNumberOfSpecs, Method.bind, self, print, println, printNewLine,
        setCursorState, hs]
  · cases succinct <;> cases h : summary.SuiteSucceeded <;>
      simp [AnnounceSpecRunCompletion, Method.bind, self, print, println, printNewLine, h, hs]
  · exact AnnounceSpecWillRun_notTop F spec s hs
  · by_cases hc : spec.CapturedOutput = "" <;>
      by_cases h1 : s.cursorState = cursorStateStreaming <;>
      by_cases h2 : s.cursorState = cursorStateMidBlock <;>
      simp [AnnounceCapturedOutput, Method.bind, self, println, printNewLine, printDelimiter,
        setCursorState, hc, h1, h2, hs]
  · simp [AnnounceSuccesfulSpec, Method.bind, self, print, setCursorState]
  · simp only [AnnounceSuccesfulSlowSpec, Method_bind_apply, Method.bind, self]
    exact printBlockWithMessage_notTop F _ _ spec succinct s hs
  · simp only [AnnounceSuccesfulMeasurement, Method_bind_apply, Method.bind, self]
    exact printBlockWithMessage_notTop F _ _ spec succinct s hs
  · cases noisy
    · simp [AnnouncePendingSpec, Method.bind, self, print, setCursorState]
    · simp only [AnnouncePendingSpec, if_true, Method_bind_apply, Method.bind, self]
      exact printBlockWithMessage_notTop F _ _ spec false s hs
  · simp [AnnounceSkippedSpec, Method.bind, self, print, setCursorState]
  · exact printFailure_notTop F _ spec succinct s hs
  · exact printFailure_notTop F _ spec succinct s hs
  · exact printFailure_notTop F _ spec succinct s hs

theorem C19_witness :
    ({ color := false, cursorState := cursorStateEndBlock } : consoleStenographer).cursorState
      ≠ cursorStateTop ∧
    (AnnounceSuite "suite" 7 false false
      { color := false, cursorState := cursorStateEndBlock }).s.cursorState ≠ cursorStateTop :=
  ⟨by decide,
    C19_cursor_never_returns_to_top sampleFormatter
      { color := false, cursorState := cursorStateEndBlock } "suite" 7 false 1 2 3 4 5
      sampleSuiteSummary sampleSpec false false (by decide) _ (List.mem_cons_self _ _)⟩

theorem measurementReport_ne_empty (F : Formatter) (s : consoleStenographer)
    (spec : SpecSummary) : measurementReport F s spec ≠ "" := by
  unfold measurementReport
  split
  · decide
  · intro h
    have hmsg : measurementReport.message F s spec
        = ("Ran " ++ colorize s boldStyle (toString spec.NumberOfSamples) ++ " samples:")
          :: measurementReport.loop F s 0 [] spec.Measurements := by
      unfold measurementReport.message
      rw [measurementReport_loop_onto]
      simp
    obtain ⟨b, hb⟩ := intercalate_cons_exists "\n"
      ("Ran " ++ colorize s boldStyle (toString spec.NumberOfSamples) ++ " samples:")
      (measurementReport.loop F s 0 [] spec.Measurements)
    rw [hmsg, hb] at h
    have hlen := congrArg String.length h
    simp only [String.length_append] at hlen
    have h4 : ("Ran " : String).length = 4 := by decide
    have h0 : ("" : String).length = 0 := by decide
    omega

/-- C20: for every spec with at least one measurement, the string returned by
measurementReport is non-empty, starts with the line "Ran N samples:" (N wrapped by the
colorizer) followed by a newline, and that line is the head of the joined message list whose
tail holds every measurement block; and for every spec with one code location per component
text AnnounceSuccesfulMeasurement emits, between the events of the nested block and the
closing delimiter, a newline and the println of the report. -/
theorem C20_measurement_report_header (F : Formatter) (s : consoleStenographer)
    (spec : SpecSummary) (succinct : Bool) :
    (spec.Measurements ≠ [] →
      measurementReport F s spec ≠ "" ∧
      (∃ rest, measurementReport F s spec
        = "Ran " ++ colorize s boldStyle (toString spec.NumberOfSamples) ++ " samples:"
            ++ "\n" ++ rest) ∧
      ∃ blocks, measurementReport.message F s spec
          = ("Ran " ++ colorize s boldStyle (toString spec.NumberOfSamples) ++ " samples:")
            :: blocks ∧
        ∀ p ∈ spec.Measurements, measurementReport.block F s p.2 ∈ blocks) ∧
    (spec.ComponentCodeLocations.length = spec.ComponentTexts.length →
      ∃ pre indentation,
        (printCodeLocationBlock F spec false succinct s).exit = .returned indentation ∧
        (AnnounceSuccesfulMeasurement F spec succinct s).out
          = pre ++ (printCodeLocationBlock F spec false succinct s).out
            ++ [.printNewLine, .println indentation (measurementReport F s spec),
                .printDelimiter]) := by
  constructor
  · intro hne
    have hmsg : measurementReport.message F s spec
        = ("Ran " ++ colorize s boldStyle (toString spec.NumberOfSamples) ++ " samples:")
          :: measurementReport.loop F s 0 [] spec.Measurements := by
      unfold measurementReport.message
      rw [measurementReport_loop_onto]
      simp
    refine ⟨measurementReport_ne_empty F s spec, ?_, _, hmsg, ?_⟩
    · have hlen : ¬ spec.Measurements.length = 0 := by
        simpa [List.length_eq_zero] using hne
      have hloop : measurementReport.loop F s 0 [] spec.Measurements ≠ [] := by
        cases hM : spec.Measurements with
        | nil => exact absurd hM hne
        | cons p rest =>
            obtain ⟨key, m⟩ := p
            rw [measurementReport_loop_cons, measurementReport_loop_onto]
            simp
      refine ⟨String.intercalate "\n" (measurementReport.loop F s 0 [] spec.Measurements), ?_⟩
      unfold measurementReport
      rw [if_neg hlen, hmsg, intercalate_cons_of_ne_nil _ _ _ hloop]
    · intro p hp
      apply measurementReport_loop_mem
      right
      exact ⟨p, hp, rfl⟩
  · intro hloc
    obtain ⟨indentation, h⟩ := printCodeLocationBlock_returns F spec false succinct s hloc
    refine ⟨(if s.cursorState = cursorStateStreaming then [.printNewLine, .printDelimiter]
             else if s.cursorState = cursorStateMidBlock then [.printNewLine] else [])
            ++ [.println 0 (colorize s greenColor "• [MEASUREMENT]")], indentation, ?_, ?_⟩
    · rw [h]
    · simp only [AnnounceSuccesfulMeasurement, Method_bind_apply, Method.bind, self]
      rw [printBlockWithMessage_of F _ _ spec succinct s _ _ h]
      simp [measurementReport_ne_empty F s spec]

theorem C20_witness :
    sampleMeasurementSpec.Measurements ≠ [] ∧
    sampleMeasurementSpec.ComponentCodeLocations.length
      = sampleMeasurementSpec.ComponentTexts.length ∧
    measurementReport sampleFormatter (New false) sampleMeasurementSpec ≠ "" ∧
    (AnnounceSuccesfulMeasurement sampleFormatter sampleMeasurementSpec false (New false)).out
      = [.println 0 "• [MEASUREMENT]", .println 0 "runs fast", .println 0 "(suite_test.go:7)",
         .printNewLine,
         .println 0 "Ran 1 samples:\nruntime:\n  Fastest Time: 1.000s\n  Slowest Time: 3.000s\n  Average Time: 2.000s ± 1.000s",
         .printDelimiter] ∧
    ∃ pre indentation,
      (printCodeLocationBlock sampleFormatter sampleMeasurementSpec false false
        (New false)).exit = .returned indentation ∧
      (AnnounceSuccesfulMeasurement sampleFormatter sampleMeasurementSpec false (New false)).out
        = pre ++ (printCodeLocationBlock sampleFormatter sampleMeasurementSpec false false
            (New false)).out
          ++ [.printNewLine,
              .println indentation
                (measurementReport sampleFormatter (New false) sampleMeasurementSpec),
              .printDelimiter] :=
  ⟨by decide, by decide,
    ((C20_measurement_report_header sampleFormatter (New false) sampleMeasurementSpec false).1
      (by decide)).1,
    by decide,
    (C20_measurement_report_header sampleFormatter (New false) sampleMeasurementSpec false).2
      (by decide)⟩

end stenographer
